import Mathlib

/-!
Verification development for the AI_analyst repository.

The core under study is the natural-language time-window extraction engine
(`src/simple_nlp.py`), the second regex-based extractor
(`src/cli.py`, `extract_time_window_advanced`), and the SQL safety gate
(`src/sql_agent.py`, `is_safe_select` / `run_sql_readonly`).

Python `datetime` values are modelled as a `Nat`: the number of microseconds
since 0001-01-01T00:00:00 (the proleptic Gregorian calendar, which is what
Python's `datetime` uses; `datetime.min` is 0001-01-01T00:00:00, i.e. `0`
in this encoding, and `datetime.max` is 9999-12-31T23:59:59.999999).
Arithmetic that can raise `OverflowError`/`ValueError` in Python is modelled
in an `Except Unit` monad; operations that cannot raise are total.

The external `dateutil` fuzzy date parser is modelled as an oracle parameter
`dtp : String → Option Nat` (`none` = the parse raised), threaded through the
resolvers that call it, exactly at the call sites where the source calls
`dtparser.parse(..., fuzzy=True)`.
-/

namespace PyTime

/-- Microseconds per second. -/
def usPerSec : Nat := 1000000

/-- Microseconds per day. -/
def usPerDay : Nat := 86400000000

/-- Ordinal of 9999-12-31, the last day representable by Python `datetime`
(`datetime.max.toordinal()`). -/
def maxOrdinal : Nat := 3652059

/-- Largest representable instant: 9999-12-31T23:59:59.999999. -/
def maxInstant : Nat := maxOrdinal * usPerDay - 1

/-- Gregorian leap-year test. -/
def isLeap (y : Nat) : Bool := y % 4 == 0 && (y % 100 != 0 || y % 400 == 0)

/-- Number of days in month `m` of year `y`. -/
def daysInMonth (y m : Nat) : Nat :=
  if m == 2 then (if isLeap y then 29 else 28)
  else if m == 4 || m == 6 || m == 9 || m == 11 then 30
  else 31

/-- Days from 0000-03-01 to the given proleptic-Gregorian civil date
(the standard era-based conversion, all in `Nat`). -/
def daysFromCivil (y m d : Nat) : Nat :=
  let y' := if m ≤ 2 then y - 1 else y
  let era := y' / 400
  let yoe := y' % 400
  let mp := if m > 2 then m - 3 else m + 9
  let doy := (153 * mp + 2) / 5 + d - 1
  let doe := yoe * 365 + yoe / 4 - yoe / 100 + doy
  era * 146097 + doe

/-- Python `date.toordinal()`: 0001-01-01 is ordinal 1. -/
def ordOfDate (y m d : Nat) : Nat := daysFromCivil y m d - 305

/-- Inverse of `daysFromCivil`: civil date from days since 0000-03-01. -/
def civilFromDays (n : Nat) : Nat × Nat × Nat :=
  let era := n / 146097
  let doe := n % 146097
  let yoe := (doe - doe / 1460 + doe / 36524 - doe / 146096) / 365
  let y := yoe + era * 400
  let doy := doe - (365 * yoe + yoe / 4 - yoe / 100)
  let mp := (5 * doy + 2) / 153
  let d := doy - (153 * mp + 2) / 5 + 1
  let m := if mp < 10 then mp + 3 else mp - 9
  (if m ≤ 2 then y + 1 else y, m, d)

/-- Civil date of a Python ordinal (ordinal 1 = 0001-01-01). -/
def dateOfOrd (o : Nat) : Nat × Nat × Nat := civilFromDays (o + 305)

/-- Build an instant from calendar fields (assumed valid). -/
def mkInstant (y m d h mi s u : Nat) : Nat :=
  (ordOfDate y m d - 1) * usPerDay + (h * 3600 + mi * 60 + s) * usPerSec + u

/-- Python ordinal of the day containing instant `t`. -/
def ordOf (t : Nat) : Nat := t / usPerDay + 1

/-- Model of `weekday()`: Monday = 0.  0001-01-01 was a Monday. -/
def weekdayOf (t : Nat) : Nat := (t / usPerDay) % 7

/-- Year field of an instant. -/
def yearOf (t : Nat) : Nat := (dateOfOrd (ordOf t)).1

/-- Model of `dt.replace(hour=h, minute=mi, second=s)`: keeps the date and the
microsecond field (the source never clears microseconds in `simple_nlp.py`). -/
def replaceHMS (t h mi s : Nat) : Nat :=
  (t / usPerDay) * usPerDay + (h * 3600 + mi * 60 + s) * usPerSec + t % usPerSec

/-- Model of `dt.replace(hour=h, minute=mi, second=s, microsecond=u)` (used by
`cli.py`'s `start_of_day`/`end_of_day`). -/
def replaceHMSU (t h mi s u : Nat) : Nat :=
  (t / usPerDay) * usPerDay + (h * 3600 + mi * 60 + s) * usPerSec + u

/-- Model of `dt.replace(day=1)`: keeps the time of day. -/
def replaceDay1 (t : Nat) : Nat :=
  let c := dateOfOrd (ordOf t)
  (ordOfDate c.1 c.2.1 1 - 1) * usPerDay + t % usPerDay

/-- Model of `dt.replace(day=1, hour=0, minute=0, second=0)`: keeps microseconds. -/
def replaceDay1HMS0 (t : Nat) : Nat :=
  let c := dateOfOrd (ordOf t)
  (ordOfDate c.1 c.2.1 1 - 1) * usPerDay + t % usPerSec

/-- Model of `dt.replace(month=1, day=1, hour=0, minute=0, second=0)`: keeps
microseconds. -/
def replaceJan1HMS0 (t : Nat) : Nat :=
  let c := dateOfOrd (ordOf t)
  (ordOfDate c.1 1 1 - 1) * usPerDay + t % usPerSec

/-- Model of `dt - timedelta(...)` with the delta given in microseconds; raises
`OverflowError` when the result falls before `datetime.min`. -/
def subUs (t delta : Nat) : Except Unit Nat :=
  if delta ≤ t then .ok (t - delta) else .error ()

/-- Model of `dt + timedelta(...)`; raises when the result passes `datetime.max`. -/
def addUs (t delta : Nat) : Except Unit Nat :=
  if t + delta ≤ maxInstant then .ok (t + delta) else .error ()

/-- Model of `dt.replace(year=y)` where `y` may have left the valid range (raises
`ValueError` outside 1..9999 or when the day is invalid in the new year). -/
def replaceYear (t : Nat) (y : Int) : Except Unit Nat :=
  let c := dateOfOrd (ordOf t)
  if 1 ≤ y ∧ y ≤ 9999 ∧ c.2.2 ≤ daysInMonth y.toNat c.2.1 then
    .ok ((ordOfDate y.toNat c.2.1 c.2.2 - 1) * usPerDay + t % usPerDay)
  else .error ()

end PyTime

namespace ReMatch

/-- Python `\s` (ASCII whitespace, as produced by these questions). -/
def pySpace (c : Char) : Bool :=
  c == ' ' || c == '\t' || c == '\n' || c == '\r' || c == '\x0b' || c == '\x0c'

/-- Python `\w` on ASCII input: alphanumeric or underscore. -/
def wordChar (c : Char) : Bool := c.isAlphanum || c == '_'

def isWordOpt : Option Char → Bool
  | none => false
  | some c => wordChar c

/-- Model of `\b`: a word boundary sits between two positions whose word-characterness
differs (string edges count as non-word). -/
def boundary (a b : Option Char) : Bool := isWordOpt a != isWordOpt b

/-- Match a literal, returning the remaining suffix. -/
def dropLit : List Char → List Char → Option (List Char)
  | [], s => some s
  | _ :: _, [] => none
  | c :: cs, d :: ds => if c == d then dropLit cs ds else none

/-- Length of the maximal run of `\s` characters at the front. -/
def spaceRun : List Char → Nat
  | [] => 0
  | c :: cs => if pySpace c then spaceRun cs + 1 else 0

/-- Length of the maximal run of digits at the front. -/
def digitRun : List Char → Nat
  | [] => 0
  | c :: cs => if c.isDigit then digitRun cs + 1 else 0

def digitsToNat (l : List Char) : Nat :=
  l.foldl (fun a c => a * 10 + (c.toNat - 48)) 0

/-- Model of `re.search`: try a match at every position, leftmost first.  The matcher
receives the previous character (for `\b`) and the suffix. -/
def searchAux (m : Option Char → List Char → Option R) :
    Option Char → List Char → Option R
  | prev, [] => m prev []
  | prev, c :: cs =>
    match m prev (c :: cs) with
    | some r => some r
    | none => searchAux m (some c) cs

def search (m : Option Char → List Char → Option R) (s : List Char) : Option R :=
  searchAux m none s

/-- Model of `\s+` (greedy, with backtracking): try the continuation with the longest
whitespace run first, then shorter ones, needing at least one character. -/
def wsThenAux (t : List Char) (cont : List Char → Option R) : Nat → Option R
  | 0 => none
  | w + 1 =>
    match cont (t.drop (w + 1)) with
    | some r => some r
    | none => wsThenAux t cont w

def wsThen (t : List Char) (cont : List Char → Option R) : Option R :=
  wsThenAux t cont (spaceRun t)

/-- Model of `([^,]+?)` (lazy, at least one char): feed the continuation ever longer
comma-free prefixes, shortest first. -/
def groupThenAux (cont : List Char → List Char → Option R) :
    List Char → List Char → Option R
  | _, [] => none
  | accRev, c :: rest =>
    if c == ',' then none
    else
      match cont (c :: accRev).reverse rest with
      | some r => some r
      | none => groupThenAux cont (c :: accRev) rest

def groupThen (t : List Char) (cont : List Char → List Char → Option R) : Option R :=
  groupThenAux cont [] t

/-- Model of `([^,]+?)(?:\s|$)`: the shortest comma-free group followed by whitespace
or the end of the string; returns the group. -/
def lazyGroupEnd (t : List Char) : Option (List Char) :=
  groupThen t fun g rest =>
    match rest with
    | [] => some g
    | d :: _ => if pySpace d then some g else none

/-- Model of `s?\b` after a word: greedily take a trailing `s` when the boundary then
holds; both branches fail when a word character follows. -/
def optSB : List Char → Option (List Char)
  | 's' :: rest => if isWordOpt rest.head? then none else some rest
  | s => if isWordOpt s.head? then none else some s

/-- Model of `\bw1\s+w2\s+...\b` for a phrase of plain words: after the first word the
whitespace runs are forced (each following word starts with a letter). -/
def phraseRest : List (List Char) → List Char → Option (List Char)
  | [], s => some s
  | w :: ws, s =>
    if spaceRun s == 0 then none
    else
      match dropLit w (s.drop (spaceRun s)) with
      | none => none
      | some s1 => phraseRest ws s1

def matchPhraseAt (words : List (List Char)) (prev : Option Char) (s : List Char) :
    Option (List Char) :=
  match words with
  | [] => none
  | w :: ws =>
    if boundary prev s.head? then
      match dropLit w s with
      | none => none
      | some s1 =>
        match phraseRest ws s1 with
        | none => none
        | some rem => if isWordOpt rem.head? then none else some rem
    else none

/-- Search for a phrase pattern; `some span` gives `match.group(0)`. -/
def searchPhrase (words : List (List Char)) (s : List Char) : Option (List Char) :=
  search (fun prev t => (matchPhraseAt words prev t).map
    (fun rem => t.take (t.length - rem.length))) s

/-- Model of `\bkw\s+(\d+)\s+units?\b` (`maxD = some 3` models `\d{1,3}`): a shorter
digit take always leaves a digit in front of `\s+`, so only the full run (when
within the bound) can match. -/
def matchLastNAt (kw unit : List Char) (maxD : Option Nat) (prev : Option Char)
    (s : List Char) : Option (List Char × Nat) :=
  if boundary prev s.head? then
    match dropLit kw s with
    | none => none
    | some s1 =>
      if spaceRun s1 == 0 then none
      else
        let s2 := s1.drop (spaceRun s1)
        let dr := digitRun s2
        if dr == 0 then none
        else if (match maxD with | none => true | some mx => decide (dr ≤ mx)) then
          let n := digitsToNat (s2.take dr)
          let s3 := s2.drop dr
          if spaceRun s3 == 0 then none
          else
            match dropLit unit (s3.drop (spaceRun s3)) with
            | none => none
            | some s4 => (optSB s4).map fun rem => (rem, n)
        else none
  else none

def searchLastN (kw unit : List Char) (maxD : Option Nat) (s : List Char) :
    Option (List Char × Nat) :=
  search (fun prev t => (matchLastNAt kw unit maxD prev t).map
    (fun r => (t.take (t.length - r.1.length), r.2))) s

/-- Model of `\b(\d+)\s+units?\s+ago\b`. -/
def matchAgoAt (unit : List Char) (prev : Option Char) (s : List Char) :
    Option (List Char × Nat) :=
  if boundary prev s.head? then
    let dr := digitRun s
    if dr == 0 then none
    else
      let n := digitsToNat (s.take dr)
      let s1 := s.drop dr
      if spaceRun s1 == 0 then none
      else
        match dropLit unit (s1.drop (spaceRun s1)) with
        | none => none
        | some s2 =>
          -- `s?\s+ago\b`: when an `s` follows it must be taken (dropping it
          -- leaves that `s` in front of `\s+`, which fails either way).
          let s3 := match s2 with
                    | 's' :: rest => rest
                    | other => other
          if spaceRun s3 == 0 then none
          else
            match dropLit ['a', 'g', 'o'] (s3.drop (spaceRun s3)) with
            | none => none
            | some rem => if isWordOpt rem.head? then none else some (rem, n)
  else none

def searchAgo (unit : List Char) (s : List Char) : Option (List Char × Nat) :=
  search (fun prev t => (matchAgoAt unit prev t).map
    (fun r => (t.take (t.length - r.1.length), r.2))) s

/-- Model of `\bkw\s+([^,]+?)(?:\s|$)` (the `since`/`on` shape); returns group 1. -/
def searchSince (kw : List Char) (s : List Char) : Option (List Char) :=
  search (fun prev t =>
    if boundary prev t.head? then
      match dropLit kw t with
      | none => none
      | some s1 => wsThen s1 lazyGroupEnd
    else none) s

/-- Model of `\bkw1\s+([^,]+?)\s+kw2\s+([^,]+?)(?:\s|$)` (the `between .. and ..`,
`from .. to ..`, `from .. until ..` shape); returns groups 1 and 2. -/
def searchPair (kw1 kw2 : List Char) (s : List Char) :
    Option (List Char × List Char) :=
  search (fun prev t =>
    if boundary prev t.head? then
      match dropLit kw1 t with
      | none => none
      | some s1 =>
        wsThen s1 fun t1 =>
        groupThen t1 fun g1 rest1 =>
        wsThen rest1 fun t2 =>
        match dropLit kw2 t2 with
        | none => none
        | some s3 =>
          wsThen s3 fun t3 =>
          (lazyGroupEnd t3).map fun g2 => (g1, g2)
    else none) s

/-- Python `str.strip()`. -/
def pyStrip (l : List Char) : List Char :=
  ((l.dropWhile pySpace).reverse.dropWhile pySpace).reverse

/-- Python `str.lower()` on ASCII text. -/
def pyLower (s : String) : List Char := s.data.map Char.toLower

end ReMatch

namespace SimpleNLP

open PyTime ReMatch

/-- Model of `simple_nlp.TimeExpression` (the `@dataclass`). -/
structure TimeExpression where
  text : String
  start_date : Option Nat
  end_date : Option Nat
  /-- The source stores float confidences; every confidence in the source is
  an exact multiple of 0.05, so they are modelled in hundredths (`0.9` ↦ `90`),
  which preserves equality and order of the float comparisons exactly. -/
  confidence : Nat
  expression_type : String
  entities : List String
deriving DecidableEq, Repr

/-- The data a resolver reads off the regex match object: `group(0)`, the
integer value of a numeric `group(1)` where present, and the raw strings of
groups 1 and 2 where present. -/
structure MatchData where
  g0 : String := ""
  num : Nat := 0
  g1 : String := ""
  g2 : String := ""
deriving Repr

/-- The shapes of the regular expressions in `SimpleTimeParser.patterns`. -/
inductive Pat where
  | phrase (ws : List (List Char))
  | lastN (kw unit : List Char)
  | ago (unit : List Char)
  | kwGroup (kw : List Char)
  | kwPair (kw1 kw2 : List Char)

/-- Model of `re.search` of one pattern against the lowered question text. -/
def runPat : Pat → List Char → Option MatchData
  | .phrase ws, s => (searchPhrase ws s).map fun sp => { g0 := String.mk sp }
  | .lastN kw unit, s => (searchLastN kw unit none s).map
      fun r => { g0 := String.mk r.1, num := r.2 }
  | .ago unit, s => (searchAgo unit s).map
      fun r => { g0 := String.mk r.1, num := r.2 }
  | .kwGroup kw, s => (searchSince kw s).map fun g => { g1 := String.mk g }
  | .kwPair k1 k2, s => (searchPair k1 k2 s).map
      fun r => { g1 := String.mk r.1, g2 := String.mk r.2 }

/-- A resolver: match data, original text, the `dateutil` oracle and `now`;
`Except` models an uncaught Python exception inside the resolver body
(caught by the engine's `try/except`), `none` a discarded match. -/
def Resolver : Type :=
  MatchData → String → (String → Option Nat) → Nat → Except Unit (Option TimeExpression)

def parse_last_week : Resolver := fun md text _ now => do
  let start_of_this_week ← subUs now (weekdayOf now * usPerDay)
  let start_of_last_week ← subUs start_of_this_week (7 * usPerDay)
  let end_of_last_week ← addUs start_of_last_week (6 * usPerDay)
  .ok (some { text := text,
              start_date := some (replaceHMS start_of_last_week 0 0 0),
              end_date := some (replaceHMS end_of_last_week 23 59 59),
              confidence := 90, expression_type := "relative",
              entities := [md.g0] })

def parse_this_week : Resolver := fun md text _ now => do
  let start_of_this_week ← subUs now (weekdayOf now * usPerDay)
  .ok (some { text := text,
              start_date := some (replaceHMS start_of_this_week 0 0 0),
              end_date := some now,
              confidence := 90, expression_type := "relative",
              entities := [md.g0] })

def parse_last_month : Resolver := fun md text _ now => do
  let first_of_this_month := replaceDay1HMS0 now
  let last_month ← subUs first_of_this_month usPerDay
  let first_of_last_month := replaceDay1 last_month
  .ok (some { text := text,
              start_date := some first_of_last_month,
              end_date := some (replaceHMS last_month 23 59 59),
              confidence := 90, expression_type := "relative",
              entities := [md.g0] })

def parse_this_month : Resolver := fun md text _ now =>
  .ok (some { text := text,
              start_date := some (replaceDay1HMS0 now),
              end_date := some now,
              confidence := 90, expression_type := "relative",
              entities := [md.g0] })

def parse_last_year : Resolver := fun md text _ now => do
  let start_of_this_year := replaceJan1HMS0 now
  let start_of_last_year ← replaceYear start_of_this_year ((yearOf now : Int) - 1)
  let end_of_last_year ← subUs start_of_this_year usPerSec
  .ok (some { text := text,
              start_date := some start_of_last_year,
              end_date := some end_of_last_year,
              confidence := 90, expression_type := "relative",
              entities := [md.g0] })

def parse_this_year : Resolver := fun md text _ now =>
  .ok (some { text := text,
              start_date := some (replaceJan1HMS0 now),
              end_date := some now,
              confidence := 90, expression_type := "relative",
              entities := [md.g0] })

def parse_yesterday : Resolver := fun md text _ now => do
  let yesterday ← subUs now usPerDay
  .ok (some { text := text,
              start_date := some (replaceHMS yesterday 0 0 0),
              end_date := some (replaceHMS yesterday 23 59 59),
              confidence := 95, expression_type := "relative",
              entities := [md.g0] })

def parse_today : Resolver := fun md text _ now =>
  .ok (some { text := text,
              start_date := some (replaceHMS now 0 0 0),
              end_date := some now,
              confidence := 95, expression_type := "relative",
              entities := [md.g0] })

def parse_last_n_days : Resolver := fun md text _ now => do
  let start ← subUs now (md.num * usPerDay)
  .ok (some { text := text,
              start_date := some (replaceHMS start 0 0 0),
              end_date := some now,
              confidence := 80, expression_type := "relative",
              entities := [md.g0] })

def parse_n_days_ago : Resolver := fun md text _ now => do
  let start ← subUs now (md.num * usPerDay)
  .ok (some { text := text,
              start_date := some (replaceHMS start 0 0 0),
              end_date := some now,
              confidence := 80, expression_type := "relative",
              entities := [md.g0] })

def parse_last_n_weeks : Resolver := fun md text _ now => do
  let start ← subUs now (md.num * 7 * usPerDay)
  .ok (some { text := text,
              start_date := some (replaceHMS start 0 0 0),
              end_date := some now,
              confidence := 80, expression_type := "relative",
              entities := [md.g0] })

def parse_n_weeks_ago : Resolver := fun md text _ now => do
  let start ← subUs now (md.num * 7 * usPerDay)
  .ok (some { text := text,
              start_date := some (replaceHMS start 0 0 0),
              end_date := some now,
              confidence := 80, expression_type := "relative",
              entities := [md.g0] })

def parse_last_n_months : Resolver := fun md text _ now => do
  let start ← subUs now (md.num * 30 * usPerDay)
  .ok (some { text := text,
              start_date := some (replaceHMS start 0 0 0),
              end_date := some now,
              confidence := 80, expression_type := "relative",
              entities := [md.g0] })

def parse_n_months_ago : Resolver := fun md text _ now => do
  let start ← subUs now (md.num * 30 * usPerDay)
  .ok (some { text := text,
              start_date := some (replaceHMS start 0 0 0),
              end_date := some now,
              confidence := 80, expression_type := "relative",
              entities := [md.g0] })

/-- Model of `_parse_since`: note that it emits `start=parsed, end=now` with no
`start ≤ end` check. -/
def parse_since : Resolver := fun md text dtp now =>
  let date_str := String.mk (pyStrip md.g1.data)
  match dtp date_str with
  | none => .ok none
  | some start_date =>
    .ok (some { text := text,
                start_date := some start_date,
                end_date := some now,
                confidence := 80, expression_type := "range",
                entities := [date_str] })

/-- Model of `_parse_between`: discards the match when the parsed end precedes the
parsed start. -/
def parse_between : Resolver := fun md text dtp _ =>
  let start_str := String.mk (pyStrip md.g1.data)
  let end_str := String.mk (pyStrip md.g2.data)
  match dtp start_str with
  | none => .ok none
  | some start_date =>
    match dtp end_str with
    | none => .ok none
    | some end_date =>
      if end_date < start_date then .ok none
      else
        .ok (some { text := text,
                    start_date := some start_date,
                    end_date := some (replaceHMS end_date 23 59 59),
                    confidence := 80, expression_type := "range",
                    entities := [start_str, end_str] })

def parse_from_to : Resolver := parse_between

def parse_from_until : Resolver := parse_between

def parse_on_date : Resolver := fun md text dtp _ =>
  let date_str := String.mk (pyStrip md.g1.data)
  match dtp date_str with
  | none => .ok none
  | some date =>
    .ok (some { text := text,
                start_date := some (replaceHMS date 0 0 0),
                end_date := some (replaceHMS date 23 59 59),
                confidence := 70, expression_type := "absolute",
                entities := [date_str] })

def lc (s : String) : List Char := s.data

/-- Model of `SimpleTimeParser.patterns`, in source order, with the source confidences. -/
def patterns : List (Pat × Resolver × Nat) := [
  (.phrase [lc "last", lc "week"], parse_last_week, 90),
  (.phrase [lc "previous", lc "week"], parse_last_week, 90),
  (.phrase [lc "past", lc "week"], parse_last_week, 80),
  (.phrase [lc "this", lc "week"], parse_this_week, 90),
  (.phrase [lc "current", lc "week"], parse_this_week, 80),
  (.phrase [lc "last", lc "month"], parse_last_month, 90),
  (.phrase [lc "previous", lc "month"], parse_last_month, 90),
  (.phrase [lc "past", lc "month"], parse_last_month, 80),
  (.phrase [lc "this", lc "month"], parse_this_month, 90),
  (.phrase [lc "current", lc "month"], parse_this_month, 80),
  (.phrase [lc "last", lc "year"], parse_last_year, 90),
  (.phrase [lc "previous", lc "year"], parse_last_year, 90),
  (.phrase [lc "past", lc "year"], parse_last_year, 80),
  (.phrase [lc "this", lc "year"], parse_this_year, 90),
  (.phrase [lc "current", lc "year"], parse_this_year, 80),
  (.phrase [lc "yesterday"], parse_yesterday, 95),
  (.phrase [lc "day", lc "before"], parse_yesterday, 80),
  (.phrase [lc "previous", lc "day"], parse_yesterday, 80),
  (.phrase [lc "today"], parse_today, 95),
  (.phrase [lc "current", lc "day"], parse_today, 80),
  (.phrase [lc "present", lc "day"], parse_today, 70),
  (.lastN (lc "last") (lc "day"), parse_last_n_days, 80),
  (.lastN (lc "past") (lc "day"), parse_last_n_days, 80),
  (.ago (lc "day"), parse_n_days_ago, 80),
  (.lastN (lc "last") (lc "week"), parse_last_n_weeks, 80),
  (.lastN (lc "past") (lc "week"), parse_last_n_weeks, 80),
  (.ago (lc "week"), parse_n_weeks_ago, 80),
  (.lastN (lc "last") (lc "month"), parse_last_n_months, 80),
  (.lastN (lc "past") (lc "month"), parse_last_n_months, 80),
  (.ago (lc "month"), parse_n_months_ago, 80),
  (.kwGroup (lc "since"), parse_since, 80),
  (.kwPair (lc "between") (lc "and"), parse_between, 80),
  (.kwPair (lc "from") (lc "to"), parse_from_to, 80),
  (.kwPair (lc "from") (lc "until"), parse_from_until, 80),
  (.kwGroup (lc "on"), parse_on_date, 70)]

/-- Model of `_parse_with_dateutil`: fuzzy-parse the whole question; keep the result
only when it lies within ten 365-day years of `now` (`timedelta.days` floors,
hence `Int.fdiv`). -/
def parse_with_dateutil (text : String) (dtp : String → Option Nat) (now : Nat) :
    Option TimeExpression :=
  match dtp text with
  | none => none
  | some parsed_date =>
    let days : Int := Int.fdiv ((parsed_date : Int) - (now : Int)) (usPerDay : Int)
    if days.natAbs < 365 * 10 then
      some { text := text,
             start_date := some parsed_date,
             end_date := some parsed_date,
             confidence := 60, expression_type := "absolute",
             entities := [text] }
    else none

/-- A missing `start`/`end` compares as `datetime.min` (= 0). -/
def sentinel (o : Option Nat) : Int := (o.getD 0 : Nat)

/-- The duplicate test of `_deduplicate_expressions`: both endpoints within
one minute. -/
def isDuplicate (a b : TimeExpression) : Bool :=
  decide ((sentinel a.start_date - sentinel b.start_date).natAbs < 60 * usPerSec) &&
  decide ((sentinel a.end_date - sentinel b.end_date).natAbs < 60 * usPerSec)

/-- One step of the dedup loop body over the accumulated unique list. -/
def dedupStep (acc : List TimeExpression) (e : TimeExpression) : List TimeExpression :=
  match acc.find? (fun u => isDuplicate e u) with
  | none => acc ++ [e]
  | some u => if u.confidence < e.confidence then acc.erase u ++ [e] else acc

def dedupGo : List TimeExpression → List TimeExpression → List TimeExpression
  | acc, [] => acc
  | acc, e :: rest => dedupGo (dedupStep acc e) rest

/-- Model of `_deduplicate_expressions`. -/
def deduplicate_expressions (l : List TimeExpression) : List TimeExpression :=
  dedupGo [] l

/-- Stable insertion keeping confidences descending (equal confidences keep
their original order, as Python's stable `sorted` does). -/
def insertDesc (e : TimeExpression) : List TimeExpression → List TimeExpression
  | [] => [e]
  | x :: xs => if e.confidence ≤ x.confidence then x :: insertDesc e xs
               else e :: x :: xs

/-- Model of `sorted(_, key=confidence, reverse=True)` (Python's sort is stable, and
stable sorts agree, so insertion sort gives the same list). -/
def sortByConfDesc (l : List TimeExpression) : List TimeExpression :=
  l.foldl (fun acc e => insertDesc e acc) []

/-- The pattern loop of `SimpleTimeParser.parse_time_expression`: run every
pattern, let each matching resolver contribute at most one expression
(uncaught resolver exceptions are swallowed by the `try/except` and skip only
that candidate), and stamp the pattern's confidence onto the expression. -/
def collectExpressions (text : String) (dtp : String → Option Nat) (now : Nat) :
    List TimeExpression :=
  patterns.foldl (fun acc e =>
    match e with
    | (p, f, conf) =>
      match runPat p (pyLower text) with
      | none => acc
      | some md =>
        match f md text dtp now with
        | .error _ => acc
        | .ok none => acc
        | .ok (some ex) => acc ++ [{ ex with confidence := conf }]) []

/-- Model of `SimpleTimeParser.parse_time_expression`: collect from every family, fall
back to bare dateutil parsing only when nothing matched, then dedup and sort. -/
def parse_time_expression (text : String) (dtp : String → Option Nat) (now : Nat) :
    List TimeExpression :=
  let expressions := collectExpressions text dtp now
  let expressions := if expressions.isEmpty then
      match parse_with_dateutil text dtp now with
      | some e => [e]
      | none => []
    else expressions
  sortByConfDesc (deduplicate_expressions expressions)

/-- Model of `SimpleTimeParser.get_best_time_window`. -/
def get_best_time_window (text : String) (dtp : String → Option Nat) (now : Nat) :
    Option Nat × Option Nat :=
  match parse_time_expression text dtp now with
  | [] => (none, none)
  | best :: _ => (best.start_date, best.end_date)

/-- Module-level `parse_time_simple` (the facade over the global parser). -/
def parse_time_simple (text : String) (dtp : String → Option Nat) (now : Nat) :
    Option Nat × Option Nat :=
  get_best_time_window text dtp now

end SimpleNLP

namespace CLI

open PyTime ReMatch SimpleNLP

/-- Model of `cli.start_of_day`: zeroes the whole time of day, microseconds included. -/
def start_of_day (t : Nat) : Nat := replaceHMSU t 0 0 0 0

/-- Model of `cli.end_of_day`: 23:59:59.999999 of the same day. -/
def end_of_day (t : Nat) : Nat := replaceHMSU t 23 59 59 999999

/-- Model of `now.replace(day=1, hour=0, minute=0, second=0, microsecond=0)`. -/
def replaceDay1Zero (t : Nat) : Nat :=
  let c := dateOfOrd (ordOf t)
  (ordOfDate c.1 c.2.1 1 - 1) * usPerDay

/-- Model of `now.replace(month=1, day=1, hour=0, minute=0, second=0, microsecond=0)`. -/
def replaceJan1Zero (t : Nat) : Nat :=
  let c := dateOfOrd (ordOf t)
  (ordOfDate c.1 1 1 - 1) * usPerDay

/-- Model of `\d{4}-\d{2}-\d{2}` at the front of the suffix; returns (span, rest). -/
def dropISO : List Char → Option (List Char × List Char)
  | y1 :: y2 :: y3 :: y4 :: '-' :: m1 :: m2 :: '-' :: d1 :: d2 :: rest =>
    if [y1, y2, y3, y4, m1, m2, d1, d2].all Char.isDigit then
      some ([y1, y2, y3, y4, '-', m1, m2, '-', d1, d2], rest)
    else none
  | _ => none

/-- Model of `dtparser.parse` on a strict `YYYY-MM-DD` string: deterministic, so no
oracle is needed here; `none` models the raise on an invalid calendar date. -/
def parseISOdate : List Char → Option Nat
  | [y1, y2, y3, y4, '-', m1, m2, '-', d1, d2] =>
    let y := digitsToNat [y1, y2, y3, y4]
    let m := digitsToNat [m1, m2]
    let d := digitsToNat [d1, d2]
    if 1 ≤ y ∧ 1 ≤ m ∧ m ≤ 12 ∧ 1 ≤ d ∧ d ≤ daysInMonth y m then
      some (mkInstant y m d 0 0 0 0)
    else none
  | _ => none

/-- Model of `\bkw\s+(\d{4}-\d{2}-\d{2})\b`. -/
def searchKwISO (kw : List Char) (q : List Char) : Option (List Char) :=
  search (fun prev t =>
    if boundary prev t.head? then
      match dropLit kw t with
      | none => none
      | some s1 =>
        if spaceRun s1 == 0 then none
        else
          match dropISO (s1.drop (spaceRun s1)) with
          | none => none
          | some (span, rest) => if isWordOpt rest.head? then none else some span
    else none) q

/-- Model of `\bkw1\s+(ISO)\s+kw2\s+(ISO)\b`. -/
def searchPairISO (kw1 kw2 : List Char) (q : List Char) :
    Option (List Char × List Char) :=
  search (fun prev t =>
    if boundary prev t.head? then
      match dropLit kw1 t with
      | none => none
      | some s1 =>
        if spaceRun s1 == 0 then none
        else
          match dropISO (s1.drop (spaceRun s1)) with
          | none => none
          | some (g1, r1) =>
            if spaceRun r1 == 0 then none
            else
              match dropLit kw2 (r1.drop (spaceRun r1)) with
              | none => none
              | some s2 =>
                if spaceRun s2 == 0 then none
                else
                  match dropISO (s2.drop (spaceRun s2)) with
                  | none => none
                  | some (g2, r2) =>
                    if isWordOpt r2.head? then none else some (g1, g2)
    else none) q

/-- Model of `(?:in|during)` at the front. -/
def dropInDuring (t : List Char) : Option (List Char) :=
  match dropLit (lc "in") t with
  | some r => some r
  | none => dropLit (lc "during") t

/-- Model of `\b(?:in|during)\s+name\b`. -/
def searchInDuringMonth (name : List Char) (q : List Char) : Bool :=
  (search (fun prev t =>
    if boundary prev t.head? then
      match dropInDuring t with
      | none => none
      | some s1 =>
        if spaceRun s1 == 0 then none
        else
          match dropLit name (s1.drop (spaceRun s1)) with
          | none => none
          | some rem => if isWordOpt rem.head? then none else some ()
    else none) q).isSome

/-- Model of `\b(?:in|during)\s+name\s+(\d{4})\b`; returns the year. -/
def searchInDuringMonthYear (name : List Char) (q : List Char) : Option Nat :=
  search (fun prev t =>
    if boundary prev t.head? then
      match dropInDuring t with
      | none => none
      | some s1 =>
        if spaceRun s1 == 0 then none
        else
          match dropLit name (s1.drop (spaceRun s1)) with
          | none => none
          | some s2 =>
            if spaceRun s2 == 0 then none
            else
              let s3 := s2.drop (spaceRun s2)
              match s3 with
              | a :: b :: c :: d :: rest =>
                if [a, b, c, d].all Char.isDigit && !(isWordOpt rest.head?) then
                  some (digitsToNat [a, b, c, d])
                else none
              | _ => none
    else none) q

/-- The `month_names` dict of `cli.py`, in insertion (= iteration) order. -/
def monthNames : List (List Char × Nat) :=
  [(lc "jan", 1), (lc "january", 1), (lc "feb", 2), (lc "february", 2),
   (lc "mar", 3), (lc "march", 3), (lc "apr", 4), (lc "april", 4),
   (lc "may", 5), (lc "jun", 6), (lc "june", 6), (lc "jul", 7),
   (lc "july", 7), (lc "aug", 8), (lc "august", 8), (lc "sep", 9),
   (lc "september", 9), (lc "oct", 10), (lc "october", 10), (lc "nov", 11),
   (lc "november", 11), (lc "dec", 12), (lc "december", 12)]

/-- Pattern 16 of `extract_time_window_advanced`: the first month name that
matches wins; `datetime(year, m, 1)` raises outside 1..9999. -/
def monthLoop (q : List Char) (now : Nat) :
    List (List Char × Nat) → Except Unit (Option Nat × Option Nat)
  | [] => .ok (none, none)
  | (nm, mn) :: rest =>
    if searchInDuringMonth nm q then
      let year := match searchInDuringMonthYear nm q with
                  | some y => y
                  | none => yearOf now
      if 1 ≤ year ∧ year ≤ 9999 then
        let start_of_month := mkInstant year mn 1 0 0 0 0
        if mn == 12 then
          if year + 1 ≤ 9999 then
            .ok (some start_of_month, some (mkInstant (year + 1) 1 1 0 0 0 0 - usPerSec))
          else .error ()
        else
          .ok (some start_of_month, some (mkInstant year (mn + 1) 1 0 0 0 0 - usPerSec))
      else .error ()
    else monthLoop q now rest

/-- Model of `cli.extract_time_window_advanced` (the Python function returns the
`isoformat()` strings of these instants; the rendering is a bijection on
instants so the model returns the instants themselves).  The `Except` layer
records that the Python function has no `try/except` around its date
arithmetic, so extreme inputs raise to the caller. -/
def extract_time_window_advanced (question : String) (now : Nat) :
    Except Unit (Option Nat × Option Nat) :=
  let q := pyStrip (pyLower question)
  if (searchPhrase [lc "last", lc "week"] q).isSome then do
    let start_of_this_week ← subUs now (weekdayOf now * usPerDay)
    let pre ← subUs start_of_this_week (7 * usPerDay)
    let start_of_last_week := start_of_day pre
    let epre ← addUs start_of_last_week (6 * usPerDay)
    .ok (some start_of_last_week, some (end_of_day epre))
  else if (searchPhrase [lc "this", lc "week"] q).isSome then do
    let pre ← subUs now (weekdayOf now * usPerDay)
    .ok (some (start_of_day pre), some now)
  else if h : (searchLastN (lc "last") (lc "day") (some 3) q).isSome then do
    let pre ← subUs now (((searchLastN (lc "last") (lc "day") (some 3) q).get h).2 * usPerDay)
    .ok (some (start_of_day pre), some now)
  else if h : (searchLastN (lc "last") (lc "week") (some 3) q).isSome then do
    let pre ← subUs now (((searchLastN (lc "last") (lc "week") (some 3) q).get h).2 * 7 * usPerDay)
    .ok (some (start_of_day pre), some now)
  else if h : (searchLastN (lc "last") (lc "month") (some 3) q).isSome then do
    let pre ← subUs now (((searchLastN (lc "last") (lc "month") (some 3) q).get h).2 * 30 * usPerDay)
    .ok (some (start_of_day pre), some now)
  else if h : (searchLastN (lc "past") (lc "day") (some 3) q).isSome then do
    let pre ← subUs now (((searchLastN (lc "past") (lc "day") (some 3) q).get h).2 * usPerDay)
    .ok (some (start_of_day pre), some now)
  else if (searchPhrase [lc "yesterday"] q).isSome then do
    let yesterday ← subUs now usPerDay
    .ok (some (start_of_day yesterday), some (end_of_day yesterday))
  else if (searchPhrase [lc "today"] q).isSome then
    .ok (some (start_of_day now), some now)
  else if (searchPhrase [lc "this", lc "month"] q).isSome then
    .ok (some (replaceDay1Zero now), some now)
  else if (searchPhrase [lc "last", lc "month"] q).isSome then do
    let first_of_this_month := replaceDay1Zero now
    let last_month ← subUs first_of_this_month usPerDay
    .ok (some (replaceDay1 last_month), some (end_of_day last_month))
  else if (searchPhrase [lc "this", lc "year"] q).isSome then
    .ok (some (replaceJan1Zero now), some now)
  else if (searchPhrase [lc "last", lc "year"] q).isSome then do
    let start_of_this_year := replaceJan1Zero now
    let start_of_last_year ← replaceYear start_of_this_year ((yearOf now : Int) - 1)
    let end_of_last_year ← subUs start_of_this_year usPerSec
    .ok (some start_of_last_year, some end_of_last_year)
  else
    extractTail q now
where
  /-- Patterns 11-16: each date-parse failure falls through to the next
  pattern (`except: pass`), while an inverted range returns `(None, None)`. -/
  extractTail (q : List Char) (now : Nat) : Except Unit (Option Nat × Option Nat) :=
    let sinceRes := (searchKwISO (lc "since") q).bind parseISOdate
    match sinceRes with
    | some start => .ok (some start, some now)
    | none =>
      let onRes := (searchKwISO (lc "on") q).bind parseISOdate
      match onRes with
      | some date => .ok (some (start_of_day date), some (end_of_day date))
      | none =>
        match rangeRes (searchPairISO (lc "between") (lc "and") q) with
        | some r => .ok r
        | none =>
          match rangeRes (searchPairISO (lc "from") (lc "to") q) with
          | some r => .ok r
          | none =>
            match rangeRes (searchPairISO (lc "from") (lc "until") q) with
            | some r => .ok r
            | none => monthLoop q now monthNames
  /-- Patterns 13-15 share this body: `some (None, None)` models the early
  `return None, None` on an inverted range; `none` means fall through. -/
  rangeRes : Option (List Char × List Char) → Option (Option Nat × Option Nat)
    | none => none
    | some (g1, g2) =>
      match parseISOdate g1 with
      | none => none
      | some start =>
        match parseISOdate g2 with
        | none => none
        | some e =>
          if e < start then some (none, none)
          else some (some start, some (end_of_day e))

end CLI

namespace SQLAgent

open ReMatch SimpleNLP

/-- Last character of the last word of an alternative (drives the trailing
`\b`: e.g. after `mysql.` the boundary needs a following word character,
after `drop` a following non-word character). -/
def lastCharOf (alt : List (List Char)) : Option Char :=
  alt.getLast?.bind List.getLast?

/-- One alternative of a `\b(...)\b` pattern, as words joined by `\s+`,
matched at the current position. -/
def matchAlt (alt : List (List Char)) (prev : Option Char) (t : List Char) : Bool :=
  match alt with
  | [] => false
  | w :: ws =>
    if boundary prev t.head? then
      match dropLit w t with
      | none => false
      | some s1 =>
        match phraseRest ws s1 with
        | none => false
        | some rem => boundary (lastCharOf (w :: ws)) rem.head?
    else false

/-- Model of `re.search` of `\b(alt1|alt2|...)\b`. -/
def searchWbAlt (alts : List (List (List Char))) (s : List Char) : Bool :=
  (search (fun prev t =>
    if alts.any (fun alt => matchAlt alt prev t) then some () else none) s).isSome

/-- Model of `^\s*select\b` (`re.search` anchored by `^`, no MULTILINE: position 0
only), case-insensitively on the raw SQL. -/
def startsSelect (low : List Char) : Bool :=
  match dropLit (lc "select") (low.drop (spaceRun low)) with
  | none => false
  | some rest => !(isWordOpt rest.head?)

/-- First occurrence of a literal substring; returns the suffix after it. -/
def findSub (w : List Char) : List Char → Option (List Char)
  | [] => dropLit w []
  | c :: rest =>
    match dropLit w (c :: rest) with
    | some r => some r
    | none => findSub w rest

/-- Model of `from\s*\(` somewhere in the suffix; returns the part after `(`. -/
def findFromParen : List Char → Option (List Char)
  | [] => none
  | c :: rest =>
    match dropLit (lc "from") (c :: rest) with
    | some s1 =>
      let s2 := s1.drop (spaceRun s1)
      match s2 with
      | '(' :: r => some r
      | _ =>
        findFromParen rest
    | none => findFromParen rest

/-- A `)` whose next character is a word character (that is what the trailing
`\b` demands after a non-word `)`). -/
def hasParenWb : List Char → Bool
  | [] => false
  | ')' :: c :: rest => wordChar c || hasParenWb (c :: rest)
  | _ :: rest => hasParenWb rest

/-- Model of `\b(union\s+all\s*select.*from\s*\(.*select.*\))\b` under DOTALL: the
`.*` pieces reduce to ordered existence of the literal parts. -/
def unionCheck (s : List Char) : Bool :=
  (search (fun prev t =>
    if boundary prev t.head? then
      match dropLit (lc "union") t with
      | none => none
      | some s1 =>
        if spaceRun s1 == 0 then none
        else
          match dropLit (lc "all") (s1.drop (spaceRun s1)) with
          | none => none
          | some s2 =>
            match dropLit (lc "select") (s2.drop (spaceRun s2)) with
            | none => none
            | some s3 =>
              match findFromParen s3 with
              | none => none
              | some s4 =>
                match findSub (lc "select") s4 with
                | none => none
                | some s5 => if hasParenWb s5 then some () else none
    else none) s).isSome

/-- Does one of the keywords occur (as a bare substring) before the next
newline?  (`--.*(kw)` without DOTALL: `.` stops at a newline.) -/
def lineHasKw (kws : List (List Char)) : List Char → Bool
  | [] => false
  | c :: rest =>
    if c == '\n' then false
    else kws.any (fun w => (dropLit w (c :: rest)).isSome) || lineHasKw kws rest

/-- Model of `--.*(drop|delete|insert|update)`. -/
def commentCheck (kws : List (List Char)) : List Char → Bool
  | [] => false
  | '-' :: '-' :: rest => lineHasKw kws rest || commentCheck kws ('-' :: rest)
  | _ :: rest => commentCheck kws rest

/-- Model of `/\*.*(kw).*\*/` under DOTALL: `/*`, then a keyword, then `*/`, in order. -/
def blockCheck (kws : List (List Char)) (s : List Char) : Bool :=
  match findSub (lc "/*") s with
  | none => false
  | some s1 =>
    kws.any fun w =>
      match findSub w s1 with
      | none => false
      | some s2 => (findSub (lc "*/") s2).isSome

def mutationKws : List (List (List Char)) :=
  [[lc "insert"], [lc "update"], [lc "delete"], [lc "drop"], [lc "alter"],
   [lc "create"], [lc "truncate"], [lc "replace"]]

def commentKws : List (List Char) :=
  [lc "drop", lc "delete", lc "insert", lc "update"]

/-- Model of `sql_agent.is_safe_select`, check for check in source order.  (The
source's final `allowed_patterns` list is built but never consulted — the
function ends with a bare `return True`.) -/
def is_safe_select (sql : String) : Bool :=
  let low := sql.data.map Char.toLower
  let sc := pyStrip low
  if !startsSelect low then false
  else if searchWbAlt mutationKws sc then false
  else if searchWbAlt [[lc "attach"], [lc "detach"], [lc "vacuum"],
                       [lc "analyze"], [lc "reindex"]] sc then false
  else if searchWbAlt [[lc "pragma"], [lc "explain", lc "query", lc "plan"]] sc then false
  else if searchWbAlt [[lc "begin"], [lc "commit"], [lc "rollback"],
                       [lc "savepoint"], [lc "release"]] sc then false
  else if searchWbAlt [[lc "attach"], [lc "detach"], [lc "backup"],
                       [lc "restore"]] sc then false
  else if searchWbAlt [[lc "load_extension"], [lc "load"]] sc then false
  else if searchWbAlt [[lc "exec"], [lc "execute"], [lc "sp_"], [lc "xp_"]] sc then false
  else if unionCheck sc then false
  else if searchWbAlt [[lc "sqlite_master"], [lc "sqlite_temp_master"],
                       [lc "sqlite_sequence"]] sc then false
  else if searchWbAlt [[lc "information_schema"], [lc "pg_"], [lc "mysql."],
                       [lc "sys."]] sc then false
  else if searchWbAlt [[lc "load_extension"], [lc "load_file"],
                       [lc "into", lc "outfile"], [lc "into", lc "dumpfile"]] sc then false
  else if searchWbAlt [[lc "benchmark"], [lc "sleep"], [lc "waitfor"],
                       [lc "delay"]] sc then false
  else if searchWbAlt [[lc "exec"], [lc "execute"], [lc "sp_executesql"]] sc then false
  else if searchWbAlt [[lc "openrowset"], [lc "opendatasource"]] sc then false
  else if commentCheck commentKws sc then false
  else if blockCheck commentKws sc then false
  else if sc.contains ';' && !(sc.getLast? == some ';') then false
  else if searchWbAlt [[lc "into", lc "outfile"], [lc "into", lc "dumpfile"],
                       [lc "into", lc "file"]] sc then false
  else true

/-- Model of `sql_agent.run_sql_readonly`: the database is an oracle
`execDb` (only consulted after the safety gate passes; rows are abstracted
to lists of rendered values). -/
def run_sql_readonly (execDb : String → Except String (List String × List (List String)))
    (sql : String) : List String × List (List String) × String :=
  if !is_safe_select sql then
    ([], [], "Unsafe or non-SELECT SQL was rejected.")
  else
    match execDb sql with
    | .ok (cols, rows) => (cols, rows, "")
    | .error exc => ([], [], "SQL execution error: " ++ exc)

end SQLAgent

namespace AnswerQuestion

/-- The WHERE-clause assembly of `cli.answer_question` (lines 294-302):
conditions and parameters are added only for present endpoints. -/
def buildWhere (start_iso end_iso : Option String) : List String × List String :=
  let w1 : List String × List String :=
    match start_iso with
    | some s => (["sent_at >= ?"], [s])
    | none => ([], [])
  match end_iso with
  | some e => (w1.1 ++ ["sent_at <= ?"], w1.2 ++ [e])
  | none => w1

/-- Model of `where_sql = (" WHERE " + " AND ".join(where)) if where else ""`. -/
def whereSql (conds : List String) : String :=
  if conds.isEmpty then ""
  else " WHERE " ++ String.intercalate " AND " conds

end AnswerQuestion

section ConcreteData

open PyTime ReMatch SimpleNLP

/-- A concrete instance of the `dateutil` oracle used to instantiate
witnesses: it parses exactly the strict `YYYY-MM-DD` strings (a behaviour
the real `dateutil.parser.parse` exhibits on such inputs) and raises on
everything else. -/
def isoDtp (s : String) : Option Nat :=
  match s.data with
  | [y1, y2, y3, y4, '-', m1, m2, '-', d1, d2] =>
    if [y1, y2, y3, y4, m1, m2, d1, d2].all Char.isDigit then
      let y := digitsToNat [y1, y2, y3, y4]
      let m := digitsToNat [m1, m2]
      let d := digitsToNat [d1, d2]
      if 1 ≤ y ∧ y ≤ 9999 ∧ 1 ≤ m ∧ m ≤ 12 ∧ 1 ≤ d ∧ d ≤ daysInMonth y m then
        some (mkInstant y m d 0 0 0 0)
      else none
    else none
  | _ => none

/-- An oracle instance that, like the real fuzzy parser, also extracts the
date from `"on 2025-01-01"` (dateutil with `fuzzy=True` skips the non-date
token `on`). -/
def fuzzyDtp (s : String) : Option Nat :=
  if s = "on 2025-01-01" then some (mkInstant 2025 1 1 0 0 0 0)
  else isoDtp s

/-- The reference instant of the spec's concrete scenarios:
2024-03-15T10:00:00 (a Friday). -/
def now0 : Nat := mkInstant 2024 3 15 10 0 0 0

end ConcreteData

section SpecSide

open PyTime SimpleNLP

/-- Spec-side: midnight on Monday of the ISO week containing `now`. -/
def mondayStartOfWeek (now : Nat) : Nat :=
  (now / usPerDay - weekdayOf now) * usPerDay

/-- Spec-side: Monday 00:00:00 of the ISO week before the current one. -/
def prevWeekMondayStart (now : Nat) : Nat :=
  (now / usPerDay - weekdayOf now - 7) * usPerDay

/-- Spec-side: Sunday 23:59:59 of the ISO week before the current one. -/
def prevWeekSundayEnd (now : Nat) : Nat :=
  prevWeekMondayStart now + 6 * usPerDay + 86399 * usPerSec

/-- Spec-side duplicate notion, in the claim's words: both starts and both
ends differ by less than 60 seconds, a missing endpoint comparing as a
sentinel far in the past (`datetime.min`). -/
def specDup (a b : TimeExpression) : Prop :=
  (sentinel a.start_date - sentinel b.start_date).natAbs < 60 * usPerSec ∧
  (sentinel a.end_date - sentinel b.end_date).natAbs < 60 * usPerSec

/-- The pipeline the claim describes: ALL matches from ALL families —
the fuzzy fallback included — collected before ranking, for every question.
(`Modelled from the spec:` this definition follows the claim's words, to be
compared with `parse_time_expression`, which is translated from the source.) -/
def claimedPipeline (text : String) (dtp : String → Option Nat) (now : Nat) :
    List TimeExpression :=
  sortByConfDesc (deduplicate_expressions
    (collectExpressions text dtp now ++ (parse_with_dateutil text dtp now).toList))

end SpecSide

deriving instance DecidableEq for Except

open PyTime ReMatch SimpleNLP

/-- Both endpoints of a resolved expression are present. -/
def WF (e : TimeExpression) : Prop := e.start_date.isSome ∧ e.end_date.isSome

/-- The property that a resolver only ever emits expressions with both
endpoints present. -/
def ResolverWF (f : Resolver) : Prop :=
  ∀ (md : MatchData) (text : String) (dtp : String → Option Nat) (now : Nat)
    (ex : TimeExpression), f md text dtp now = .ok (some ex) → WF ex

/-- Confidence-descending order used to state sortedness of the ranking. -/
def confGE (a b : TimeExpression) : Prop := b.confidence ≤ a.confidence

/-- The `last 7 days` candidate of the two-family deduplication scenario. -/
def eDays : TimeExpression :=
  { text := "emails last 7 days 1 week ago",
    start_date := some (mkInstant 2024 3 8 0 0 0 0),
    end_date := some now0,
    confidence := 80, expression_type := "relative",
    entities := ["last 7 days"] }

/-- The `1 week ago` candidate of the same scenario: the same window. -/
def eWeeks : TimeExpression :=
  { text := "emails last 7 days 1 week ago",
    start_date := some (mkInstant 2024 3 8 0 0 0 0),
    end_date := some now0,
    confidence := 80, expression_type := "relative",
    entities := ["1 week ago"] }

/-- The `on <date>` candidate of the fallback-bypass scenario. -/
def onE : TimeExpression :=
  { text := "on 2025-01-01",
    start_date := some (mkInstant 2025 1 1 0 0 0 0),
    end_date := some (mkInstant 2025 1 1 23 59 59 0),
    confidence := 70, expression_type := "absolute",
    entities := ["2025-01-01"] }

/-- The fuzzy-fallback candidate the claimed pipeline would also collect. -/
def fbE : TimeExpression :=
  { text := "on 2025-01-01",
    start_date := some (mkInstant 2025 1 1 0 0 0 0),
    end_date := some (mkInstant 2025 1 1 0 0 0 0),
    confidence := 60, expression_type := "absolute",
    entities := ["on 2025-01-01"] }

theorem except_ok_bind (a : α) (f : α → Except ε β) :
    (Except.ok a >>= f : Except ε β) = f a := rfl

theorem except_error_bind (e : ε) (f : α → Except ε β) :
    (Except.error e >>= f : Except ε β) = Except.error e := rfl

theorem wf_of_record (ex : TimeExpression) (t ty : String) (s e c : Nat)
    (en : List String)
    (h : ({ text := t, start_date := some s, end_date := some e,
            confidence := c, expression_type := ty,
            entities := en } : TimeExpression) = ex) : WF ex := by
  rw [← h]; exact ⟨rfl, rfl⟩

theorem parse_last_week_wf : ResolverWF parse_last_week := by
  intro md text dtp now ex h
  simp only [parse_last_week] at h
  cases h1 : subUs now (weekdayOf now * usPerDay) with
  | error u => rw [h1, except_error_bind] at h; simp at h
  | ok a =>
    rw [h1, except_ok_bind] at h
    cases h2 : subUs a (7 * usPerDay) with
    | error u => rw [h2, except_error_bind] at h; simp at h
    | ok b =>
      rw [h2, except_ok_bind] at h
      cases h3 : addUs b (6 * usPerDay) with
      | error u => rw [h3, except_error_bind] at h; simp at h
      | ok c =>
        rw [h3, except_ok_bind] at h
        simp only [Except.ok.injEq, Option.some.injEq] at h
        exact wf_of_record ex _ _ _ _ _ _ h

theorem parse_this_week_wf : ResolverWF parse_this_week := by
  intro md text dtp now ex h
  simp only [parse_this_week] at h
  cases h1 : subUs now (weekdayOf now * usPerDay) with
  | error u => rw [h1, except_error_bind] at h; simp at h
  | ok a =>
    rw [h1, except_ok_bind] at h
    simp only [Except.ok.injEq, Option.some.injEq] at h
    exact wf_of_record ex _ _ _ _ _ _ h

theorem parse_last_month_wf : ResolverWF parse_last_month := by
  intro md text dtp now ex h
  simp only [parse_last_month] at h
  cases h1 : subUs (replaceDay1HMS0 now) usPerDay with
  | error u => rw [h1, except_error_bind] at h; simp at h
  | ok a =>
    rw [h1, except_ok_bind] at h
    simp only [Except.ok.injEq, Option.some.injEq] at h
    exact wf_of_record ex _ _ _ _ _ _ h

theorem parse_this_month_wf : ResolverWF parse_this_month := by
  intro md text dtp now ex h
  simp only [parse_this_month, Except.ok.injEq, Option.some.injEq] at h
  exact wf_of_record ex _ _ _ _ _ _ h

theorem parse_last_year_wf : ResolverWF parse_last_year := by
  intro md text dtp now ex h
  simp only [parse_last_year] at h
  cases h1 : replaceYear (replaceJan1HMS0 now) ((yearOf now : Int) - 1) with
  | error u => rw [h1, except_error_bind] at h; simp at h
  | ok a =>
    rw [h1, except_ok_bind] at h
    cases h2 : subUs (replaceJan1HMS0 now) usPerSec with
    | error u => rw [h2, except_error_bind] at h; simp at h
    | ok b =>
      rw [h2, except_ok_bind] at h
      simp only [Except.ok.injEq, Option.some.injEq] at h
      exact wf_of_record ex _ _ _ _ _ _ h

theorem parse_this_year_wf : ResolverWF parse_this_year := by
  intro md text dtp now ex h
  simp only [parse_this_year, Except.ok.injEq, Option.some.injEq] at h
  exact wf_of_record ex _ _ _ _ _ _ h

theorem parse_yesterday_wf : ResolverWF parse_yesterday := by
  intro md text dtp now ex h
  simp only [parse_yesterday] at h
  cases h1 : subUs now usPerDay with
  | error u => rw [h1, except_error_bind] at h; simp at h
  | ok a =>
    rw [h1, except_ok_bind] at h
    simp only [Except.ok.injEq, Option.some.injEq] at h
    exact wf_of_record ex _ _ _ _ _ _ h

theorem parse_today_wf : ResolverWF parse_today := by
  intro md text dtp now ex h
  simp only [parse_today, Except.ok.injEq, Option.some.injEq] at h
  exact wf_of_record ex _ _ _ _ _ _ h

theorem parse_last_n_days_wf : ResolverWF parse_last_n_days := by
  intro md text dtp now ex h
  simp only [parse_last_n_days] at h
  cases h1 : subUs now (md.num * usPerDay) with
  | error u => rw [h1, except_error_bind] at h; simp at h
  | ok a =>
    rw [h1, except_ok_bind] at h
    simp only [Except.ok.injEq, Option.some.injEq] at h
    exact wf_of_record ex _ _ _ _ _ _ h

theorem parse_n_days_ago_wf : ResolverWF parse_n_days_ago := by
  intro md text dtp now ex h
  simp only [parse_n_days_ago] at h
  cases h1 : subUs now (md.num * usPerDay) with
  | error u => rw [h1, except_error_bind] at h; simp at h
  | ok a =>
    rw [h1, except_ok_bind] at h
    simp only [Except.ok.injEq, Option.some.injEq] at h
    exact wf_of_record ex _ _ _ _ _ _ h

theorem parse_last_n_weeks_wf : ResolverWF parse_last_n_weeks := by
  intro md text dtp now ex h
  simp only [parse_last_n_weeks] at h
  cases h1 : subUs now (md.num * 7 * usPerDay) with
  | error u => rw [h1, except_error_bind] at h; simp at h
  | ok a =>
    rw [h1, except_ok_bind] at h
    simp only [Except.ok.injEq, Option.some.injEq] at h
    exact wf_of_record ex _ _ _ _ _ _ h

theorem parse_n_weeks_ago_wf : ResolverWF parse_n_weeks_ago := by
  intro md text dtp now ex h
  simp only [parse_n_weeks_ago] at h
  cases h1 : subUs now (md.num * 7 * usPerDay) with
  | error u => rw [h1, except_error_bind] at h; simp at h
  | ok a =>
    rw [h1, except_ok_bind] at h
    simp only [Except.ok.injEq, Option.some.injEq] at h
    exact wf_of_record ex _ _ _ _ _ _ h

theorem parse_last_n_months_wf : ResolverWF parse_last_n_months := by
  intro md text dtp now ex h
  simp only [parse_last_n_months] at h
  cases h1 : subUs now (md.num * 30 * usPerDay) with
  | error u => rw [h1, except_error_bind] at h; simp at h
  | ok a =>
    rw [h1, except_ok_bind] at h
    simp only [Except.ok.injEq, Option.some.injEq] at h
    exact wf_of_record ex _ _ _ _ _ _ h

theorem parse_n_months_ago_wf : ResolverWF parse_n_months_ago := by
  intro md text dtp now ex h
  simp only [parse_n_months_ago] at h
  cases h1 : subUs now (md.num * 30 * usPerDay) with
  | error u => rw [h1, except_error_bind] at h; simp at h
  | ok a =>
    rw [h1, except_ok_bind] at h
    simp only [Except.ok.injEq, Option.some.injEq] at h
    exact wf_of_record ex _ _ _ _ _ _ h

theorem parse_since_wf : ResolverWF parse_since := by
  intro md text dtp now ex h
  simp only [parse_since] at h
  cases hd : dtp (String.mk (pyStrip md.g1.data)) with
  | none => simp only [hd] at h; simp at h
  | some d =>
    simp only [hd, Except.ok.injEq, Option.some.injEq] at h
    exact wf_of_record ex _ _ _ _ _ _ h

theorem parse_between_wf : ResolverWF parse_between := by
  intro md text dtp now ex h
  simp only [parse_between] at h
  cases hd1 : dtp (String.mk (pyStrip md.g1.data)) with
  | none => simp only [hd1] at h; simp at h
  | some d1 =>
    simp only [hd1] at h
    cases hd2 : dtp (String.mk (pyStrip md.g2.data)) with
    | none => simp only [hd2] at h; simp at h
    | some d2 =>
      simp only [hd2] at h
      by_cases hlt : d2 < d1
      · rw [if_pos hlt] at h; simp at h
      · rw [if_neg hlt] at h
        simp only [Except.ok.injEq, Option.some.injEq] at h
        exact wf_of_record ex _ _ _ _ _ _ h

theorem parse_from_to_wf : ResolverWF parse_from_to := parse_between_wf

theorem parse_from_until_wf : ResolverWF parse_from_until := parse_between_wf

theorem parse_on_date_wf : ResolverWF parse_on_date := by
  intro md text dtp now ex h
  simp only [parse_on_date] at h
  cases hd : dtp (String.mk (pyStrip md.g1.data)) with
  | none => simp only [hd] at h; simp at h
  | some d =>
    simp only [hd, Except.ok.injEq, Option.some.injEq] at h
    exact wf_of_record ex _ _ _ _ _ _ h

theorem patterns_forall_wf : patterns.Forall (fun pr => ResolverWF pr.2.1) := by
  simp only [patterns, List.Forall]
  exact ⟨parse_last_week_wf, parse_last_week_wf, parse_last_week_wf,
    parse_this_week_wf, parse_this_week_wf,
    parse_last_month_wf, parse_last_month_wf, parse_last_month_wf,
    parse_this_month_wf, parse_this_month_wf,
    parse_last_year_wf, parse_last_year_wf, parse_last_year_wf,
    parse_this_year_wf, parse_this_year_wf,
    parse_yesterday_wf, parse_yesterday_wf, parse_yesterday_wf,
    parse_today_wf, parse_today_wf, parse_today_wf,
    parse_last_n_days_wf, parse_last_n_days_wf, parse_n_days_ago_wf,
    parse_last_n_weeks_wf, parse_last_n_weeks_wf, parse_n_weeks_ago_wf,
    parse_last_n_months_wf, parse_last_n_months_wf, parse_n_months_ago_wf,
    parse_since_wf, parse_between_wf, parse_from_to_wf, parse_from_until_wf,
    parse_on_date_wf⟩

theorem patterns_wf : ∀ pr ∈ patterns, ResolverWF pr.2.1 :=
  List.forall_iff_forall_mem.mp patterns_forall_wf

theorem mem_insertDesc (x e : TimeExpression) (l : List TimeExpression) :
    x ∈ insertDesc e l ↔ x = e ∨ x ∈ l := by
  induction l with
  | nil => simp [insertDesc]
  | cons a as ih =>
    unfold insertDesc
    split
    · simp [ih]; tauto
    · simp

theorem insertDesc_sorted (e : TimeExpression) (l : List TimeExpression)
    (h : l.Sorted confGE) : (insertDesc e l).Sorted confGE := by
  induction l with
  | nil => simp [insertDesc, List.Sorted]
  | cons a as ih =>
    rw [List.sorted_cons] at h
    unfold insertDesc
    split
    · rename_i hle
      rw [List.sorted_cons]
      refine ⟨fun b hb => ?_, ih h.2⟩
      rw [mem_insertDesc] at hb
      rcases hb with rfl | hb
      · exact hle
      · exact h.1 b hb
    · rename_i hgt
      push_neg at hgt
      rw [List.sorted_cons]
      refine ⟨fun b hb => ?_, by rw [List.sorted_cons]; exact h⟩
      rcases hb with _ | hb
      · exact le_of_lt hgt
      · exact le_trans (h.1 b (by assumption)) (le_of_lt hgt)

theorem sortByConfDesc_sorted (l : List TimeExpression) :
    (sortByConfDesc l).Sorted confGE := by
  suffices h : ∀ acc, acc.Sorted confGE →
      (l.foldl (fun acc e => insertDesc e acc) acc).Sorted confGE by
    exact h [] (by simp)
  induction l with
  | nil => intro acc h; simpa using h
  | cons a as ih =>
    intro acc hacc
    exact ih _ (insertDesc_sorted a acc hacc)

theorem mem_sortByConfDesc (x : TimeExpression) (l : List TimeExpression) :
    x ∈ sortByConfDesc l ↔ x ∈ l := by
  suffices h : ∀ acc, x ∈ l.foldl (fun acc e => insertDesc e acc) acc ↔
      x ∈ acc ∨ x ∈ l by
    simpa using h []
  induction l with
  | nil => intro acc; simp
  | cons a as ih =>
    intro acc
    rw [List.foldl_cons, ih, mem_insertDesc]
    simp
    tauto

theorem dedupStep_subset (acc : List TimeExpression) (e x : TimeExpression)
    (h : x ∈ dedupStep acc e) : x ∈ acc ∨ x = e := by
  unfold dedupStep at h
  cases hf : acc.find? (fun u => isDuplicate e u) with
  | none =>
    simp only [hf] at h
    rcases List.mem_append.mp h with h1 | h1
    · exact Or.inl h1
    · exact Or.inr (by simpa using h1)
  | some u =>
    simp only [hf] at h
    by_cases hc : u.confidence < e.confidence
    · rw [if_pos hc] at h
      rcases List.mem_append.mp h with h | h
      · exact Or.inl (List.mem_of_mem_erase h)
      · exact Or.inr (by simpa using h)
    · rw [if_neg hc] at h
      exact Or.inl h

theorem dedupGo_subset (l : List TimeExpression) :
    ∀ (acc : List TimeExpression) (x : TimeExpression),
      x ∈ dedupGo acc l → x ∈ acc ∨ x ∈ l := by
  induction l with
  | nil => intro acc x h; exact Or.inl h
  | cons e rest ih =>
    intro acc x h
    unfold dedupGo at h
    rcases ih _ x h with h1 | h1
    · rcases dedupStep_subset acc e x h1 with h2 | h2
      · exact Or.inl h2
      · exact Or.inr (by simp [h2])
    · exact Or.inr (List.mem_cons_of_mem _ h1)

theorem dedup_subset (l : List TimeExpression) (x : TimeExpression)
    (h : x ∈ deduplicate_expressions l) : x ∈ l := by
  rcases dedupGo_subset l [] x h with h1 | h1
  · simp at h1
  · exact h1

theorem parse_with_dateutil_wf (text : String) (dtp : String → Option Nat)
    (now : Nat) (ex : TimeExpression)
    (h : parse_with_dateutil text dtp now = some ex) : WF ex := by
  unfold parse_with_dateutil at h
  cases hd : dtp text with
  | none => simp only [hd] at h; simp at h
  | some d =>
    simp only [hd] at h
    by_cases hc : (Int.fdiv ((d : Int) - (now : Int)) (usPerDay : Int)).natAbs < 365 * 10
    · rw [if_pos hc] at h
      simp only [Option.some.injEq] at h
      exact wf_of_record ex _ _ _ _ _ _ h
    · rw [if_neg hc] at h; simp at h

theorem collect_wf (text : String) (dtp : String → Option Nat) (now : Nat) :
    ∀ x ∈ collectExpressions text dtp now, WF x := by
  unfold collectExpressions
  suffices h : ∀ (ps : List (Pat × Resolver × Nat)) (acc : List TimeExpression),
      (∀ pr ∈ ps, ResolverWF pr.2.1) → (∀ x ∈ acc, WF x) →
      ∀ x ∈ ps.foldl (fun acc e =>
        match e with
        | (p, f, conf) =>
          match runPat p (pyLower text) with
          | none => acc
          | some md =>
            match f md text dtp now with
            | .error _ => acc
            | .ok none => acc
            | .ok (some ex) => acc ++ [{ ex with confidence := conf }]) acc, WF x by
    exact h patterns [] patterns_wf (by simp)
  intro ps
  induction ps with
  | nil =>
    intro acc _ hacc x hx
    exact hacc x (by simpa using hx)
  | cons hd tl ih =>
    intro acc hps hacc x hx
    rw [List.foldl_cons] at hx
    refine ih _ (fun pr hpr => hps pr (List.mem_cons_of_mem _ hpr)) ?_ x hx
    obtain ⟨p, f, conf⟩ := hd
    intro y hy
    simp only at hy
    cases hm : runPat p (pyLower text) with
    | none =>
      simp only [hm] at hy
      exact hacc y hy
    | some md =>
      simp only [hm] at hy
      cases hr : f md text dtp now with
      | error u =>
        simp only [hr] at hy
        exact hacc y hy
      | ok o =>
        cases o with
        | none =>
          simp only [hr] at hy
          exact hacc y hy
        | some ex0 =>
          simp only [hr] at hy
          rcases List.mem_append.mp hy with hy1 | hy1
          · exact hacc y hy1
          · have hye : y = { ex0 with confidence := conf } := by simpa using hy1
            have hwf := hps (p, f, conf) (List.mem_cons_self _ _) md text dtp now ex0 hr
            rw [hye]
            exact ⟨hwf.1, hwf.2⟩

/-- C1 (corrected): resolving a question matching the phrase `last week` does
span Monday through Sunday of the previous ISO week, but the `replace(hour=0,
minute=0, second=0)` calls in `_parse_last_week` keep the microsecond field of
`now`, so the endpoints are exactly Monday 00:00:00 and Sunday 23:59:59 only
when `now` carries no sub-second component.  Under that proviso the resolver
emits exactly the claimed window, and the spec's concrete scenario
(`now` = 2024-03-15T10:00:00) returns start = 2024-03-04T00:00:00 and
end = 2024-03-10T23:59:59 with no residual sub-second component. -/
theorem C1_last_week_resolution :
    (∀ (md : MatchData) (text : String) (dtp : String → Option Nat) (now : Nat),
      now ≤ maxInstant →
      weekdayOf now + 7 ≤ now / usPerDay →
      now % usPerSec = 0 →
      parse_last_week md text dtp now =
        .ok (some { text := text,
                    start_date := some (prevWeekMondayStart now),
                    end_date := some (prevWeekSundayEnd now),
                    confidence := 90, expression_type := "relative",
                    entities := [md.g0] })) ∧
    parse_time_simple "How many emails were sent last week?" isoDtp now0 =
      (some (mkInstant 2024 3 4 0 0 0 0), some (mkInstant 2024 3 10 23 59 59 0)) := by
  constructor
  · intro md text dtp now hmax h7 hus
    have hmax' : now ≤ 315537897599999999 := hmax
    have h7' : (now / 86400000000) % 7 + 7 ≤ now / 86400000000 := h7
    have hus' : now % 1000000 = 0 := hus
    have hsub1 : weekdayOf now * usPerDay ≤ now := by
      show (now / 86400000000) % 7 * 86400000000 ≤ now
      omega
    have hsub2 : 7 * usPerDay ≤ now - weekdayOf now * usPerDay := by
      show 7 * 86400000000 ≤ now - (now / 86400000000) % 7 * 86400000000
      omega
    have hadd : now - weekdayOf now * usPerDay - 7 * usPerDay + 6 * usPerDay ≤ maxInstant := by
      show now - (now / 86400000000) % 7 * 86400000000 - 7 * 86400000000
             + 6 * 86400000000 ≤ 315537897599999999
      omega
    have e1 : subUs now (weekdayOf now * usPerDay) =
        Except.ok (now - weekdayOf now * usPerDay) := by
      unfold subUs; rw [if_pos hsub1]
    have e2 : subUs (now - weekdayOf now * usPerDay) (7 * usPerDay) =
        Except.ok (now - weekdayOf now * usPerDay - 7 * usPerDay) := by
      unfold subUs; rw [if_pos hsub2]
    have e3 : addUs (now - weekdayOf now * usPerDay - 7 * usPerDay) (6 * usPerDay) =
        Except.ok (now - weekdayOf now * usPerDay - 7 * usPerDay + 6 * usPerDay) := by
      unfold addUs; rw [if_pos hadd]
    have hstart : replaceHMS (now - weekdayOf now * usPerDay - 7 * usPerDay) 0 0 0 =
        prevWeekMondayStart now := by
      show (now - (now / 86400000000) % 7 * 86400000000 - 7 * 86400000000) / 86400000000
             * 86400000000
           + (0 * 3600 + 0 * 60 + 0) * 1000000
           + (now - (now / 86400000000) % 7 * 86400000000 - 7 * 86400000000) % 1000000
         = (now / 86400000000 - (now / 86400000000) % 7 - 7) * 86400000000
      omega
    have hend : replaceHMS
        (now - weekdayOf now * usPerDay - 7 * usPerDay + 6 * usPerDay) 23 59 59 =
        prevWeekSundayEnd now := by
      show (now - (now / 86400000000) % 7 * 86400000000 - 7 * 86400000000
              + 6 * 86400000000) / 86400000000 * 86400000000
           + (23 * 3600 + 59 * 60 + 59) * 1000000
           + (now - (now / 86400000000) % 7 * 86400000000 - 7 * 86400000000
              + 6 * 86400000000) % 1000000
         = (now / 86400000000 - (now / 86400000000) % 7 - 7) * 86400000000
             + 6 * 86400000000 + 86399 * 1000000
      omega
    unfold parse_last_week
    rw [e1, except_ok_bind, e2, except_ok_bind, e3, except_ok_bind, hstart, hend]
  · rfl

/-- C1 witness: the resolver hypotheses hold at the spec's reference instant. -/
theorem C1_last_week_resolution_witness :
    (now0 ≤ maxInstant ∧ weekdayOf now0 + 7 ≤ now0 / usPerDay ∧
      now0 % usPerSec = 0) ∧
    parse_last_week { g0 := "last week" } "How many emails were sent last week?"
        isoDtp now0 =
      .ok (some { text := "How many emails were sent last week?",
                  start_date := some (prevWeekMondayStart now0),
                  end_date := some (prevWeekSundayEnd now0),
                  confidence := 90, expression_type := "relative",
                  entities := ["last week"] }) :=
  ⟨⟨by decide, by decide, by decide⟩,
   C1_last_week_resolution.1 { g0 := "last week" }
     "How many emails were sent last week?" isoDtp now0
     (by decide) (by decide) (by decide)⟩

/-- C1 counterexample: with `now` = 2024-03-15T10:00:00.500000 the returned
window keeps the half second, so it is not exactly Monday 00:00:00 through
Sunday 23:59:59 as the claim states for every instant. -/
theorem C1_last_week_cex :
    parse_time_simple "How many emails were sent last week?" isoDtp
        (mkInstant 2024 3 15 10 0 0 500000) =
      (some (mkInstant 2024 3 4 0 0 0 500000),
       some (mkInstant 2024 3 10 23 59 59 500000)) ∧
    parse_time_simple "How many emails were sent last week?" isoDtp
        (mkInstant 2024 3 15 10 0 0 500000) ≠
      (some (prevWeekMondayStart (mkInstant 2024 3 15 10 0 0 500000)),
       some (prevWeekSundayEnd (mkInstant 2024 3 15 10 0 0 500000))) :=
  ⟨rfl, by decide⟩

/-- C2 (corrected): the `between`/`from..to`/`from..until` resolver does
discard a match whose parsed end precedes its parsed start, but the
`since <date>` resolver performs no such check: it emits
`start = parsed date, end = now` unconditionally, so a since-date after `now`
yields an expression with `start > end`. -/
theorem C2_start_le_end :
    (∀ (md : MatchData) (text : String) (dtp : String → Option Nat) (now : Nat)
       (d1 d2 : Nat),
      dtp (String.mk (pyStrip md.g1.data)) = some d1 →
      dtp (String.mk (pyStrip md.g2.data)) = some d2 →
      d2 < d1 →
      parse_between md text dtp now = .ok none) ∧
    (∀ (md : MatchData) (text : String) (dtp : String → Option Nat) (now : Nat)
       (d : Nat),
      dtp (String.mk (pyStrip md.g1.data)) = some d →
      parse_since md text dtp now =
        .ok (some { text := text, start_date := some d, end_date := some now,
                    confidence := 80, expression_type := "range",
                    entities := [String.mk (pyStrip md.g1.data)] })) := by
  constructor
  · intro md text dtp now d1 d2 h1 h2 hlt
    simp only [parse_between, h1, h2, if_pos hlt]
  · intro md text dtp now d h
    simp only [parse_since, h]

/-- C2 witness: both branches instantiated at concrete dates. -/
theorem C2_start_le_end_witness :
    (isoDtp (String.mk (pyStrip ("2024-06-01".data))) = some (mkInstant 2024 6 1 0 0 0 0) ∧
     isoDtp (String.mk (pyStrip ("2024-01-01".data))) = some (mkInstant 2024 1 1 0 0 0 0) ∧
     mkInstant 2024 1 1 0 0 0 0 < mkInstant 2024 6 1 0 0 0 0 ∧
     parse_between { g1 := "2024-06-01", g2 := "2024-01-01" } "q" isoDtp now0 = .ok none) ∧
    parse_since { g1 := "2050-01-01" } "q" isoDtp now0 =
      .ok (some { text := "q", start_date := some (mkInstant 2050 1 1 0 0 0 0),
                  end_date := some now0, confidence := 80,
                  expression_type := "range", entities := ["2050-01-01"] }) :=
  ⟨⟨by decide, by decide, by decide,
    C2_start_le_end.1 { g1 := "2024-06-01", g2 := "2024-01-01" } "q" isoDtp now0
      (mkInstant 2024 6 1 0 0 0 0) (mkInstant 2024 1 1 0 0 0 0)
      (by decide) (by decide) (by decide)⟩,
   C2_start_le_end.2 { g1 := "2050-01-01" } "q" isoDtp now0
     (mkInstant 2050 1 1 0 0 0 0) (by decide)⟩

/-- C2 counterexample: on the question `since 2050-01-01` (with
`now` = 2024-03-15T10:00:00) the engine emits a TimeExpression whose start
lies after its end, refuting the claimed construction-time invariant. -/
theorem C2_since_cex :
    parse_time_expression "since 2050-01-01" isoDtp now0 =
      [{ text := "since 2050-01-01",
         start_date := some (mkInstant 2050 1 1 0 0 0 0),
         end_date := some now0,
         confidence := 80, expression_type := "range",
         entities := ["2050-01-01"] }] ∧
    now0 < mkInstant 2050 1 1 0 0 0 0 :=
  ⟨rfl, by decide⟩

/-- C3 (corrected): in `SimpleTimeParser` an inverted `between/from` range is
discarded (the resolver returns `None`) and other pattern families still
apply — a question carrying an inverted range plus `yesterday` resolves to the
yesterday window.  The cli extractor, however, returns `(None, None)`
immediately on an inverted range instead of trying the later month-name
family (see the counterexample). -/
theorem C3_invalid_range :
    (∀ (md : MatchData) (text : String) (dtp : String → Option Nat) (now : Nat)
       (d1 d2 : Nat),
      dtp (String.mk (pyStrip md.g1.data)) = some d1 →
      dtp (String.mk (pyStrip md.g2.data)) = some d2 →
      d2 < d1 →
      parse_between md text dtp now = .ok none ∧
      parse_from_to md text dtp now = .ok none ∧
      parse_from_until md text dtp now = .ok none) ∧
    parse_time_simple "between 2024-06-01 and 2024-01-01 yesterday" isoDtp now0 =
      (some (mkInstant 2024 3 14 0 0 0 0), some (mkInstant 2024 3 14 23 59 59 0)) := by
  constructor
  · intro md text dtp now d1 d2 h1 h2 hlt
    refine ⟨?_, ?_, ?_⟩ <;>
      simp only [parse_from_to, parse_from_until, parse_between, h1, h2, if_pos hlt]
  · rfl

/-- C3 witness: the discard branch instantiated at an inverted concrete range. -/
theorem C3_invalid_range_witness :
    (isoDtp (String.mk (pyStrip ("2024-06-01".data))) = some (mkInstant 2024 6 1 0 0 0 0) ∧
     isoDtp (String.mk (pyStrip ("2024-01-01".data))) = some (mkInstant 2024 1 1 0 0 0 0) ∧
     mkInstant 2024 1 1 0 0 0 0 < mkInstant 2024 6 1 0 0 0 0) ∧
    parse_between { g1 := "2024-06-01", g2 := "2024-01-01" } "w" isoDtp now0 = .ok none ∧
    parse_from_to { g1 := "2024-06-01", g2 := "2024-01-01" } "w" isoDtp now0 = .ok none ∧
    parse_from_until { g1 := "2024-06-01", g2 := "2024-01-01" } "w" isoDtp now0 = .ok none :=
  ⟨⟨by decide, by decide, by decide⟩,
   C3_invalid_range.1 { g1 := "2024-06-01", g2 := "2024-01-01" } "w" isoDtp now0
     (mkInstant 2024 6 1 0 0 0 0) (mkInstant 2024 1 1 0 0 0 0)
     (by decide) (by decide) (by decide)⟩

/-- C3 counterexample: in `cli.extract_time_window_advanced` an inverted
`between` range returns `(None, None)` even though the later month-name
family matches the same question (alone, `during march 2024` resolves to the
March 2024 window), so the other families are not all still tried. -/
theorem C3_cli_between_cex :
    CLI.extract_time_window_advanced
        "between 2024-06-01 and 2024-01-01 during march 2024" now0 = .ok (none, none) ∧
    CLI.extract_time_window_advanced "during march 2024" now0 =
      .ok (some (mkInstant 2024 3 1 0 0 0 0),
           some (mkInstant 2024 3 31 23 59 59 0)) :=
  ⟨rfl, rfl⟩

/-- C4 (confirmed): for every question, oracle behaviour and `now`, the
engine returns a well-formed pair — `(None, None)` or two present endpoints —
and never lets a resolver exception escape (each resolver body runs inside
the per-candidate `try/except`, modelled by the `Except` layer that the
engine eliminates).  A malformed date fragment inside one matched pattern
(`since 2024-13-45`) only skips that candidate: the question still resolves
through the `yesterday` family. -/
theorem C4_total_no_raise :
    (∀ (text : String) (dtp : String → Option Nat) (now : Nat),
      parse_time_simple text dtp now = (none, none) ∨
      ∃ s e, parse_time_simple text dtp now = (some s, some e)) ∧
    parse_time_simple "since 2024-13-45 yesterday" isoDtp now0 =
      (some (mkInstant 2024 3 14 0 0 0 0),
       some (mkInstant 2024 3 14 23 59 59 0)) := by
  refine ⟨fun text dtp now => ?_, rfl⟩
  cases hp : parse_time_expression text dtp now with
  | nil =>
    left
    unfold parse_time_simple get_best_time_window
    rw [hp]
  | cons b rest =>
    right
    have hb : b ∈ parse_time_expression text dtp now := by
      rw [hp]; exact List.mem_cons_self _ _
    simp only [parse_time_expression] at hb
    rw [mem_sortByConfDesc] at hb
    have hb2 := dedup_subset _ _ hb
    have hwf : WF b := by
      by_cases hc : (collectExpressions text dtp now).isEmpty
      · rw [if_pos hc] at hb2
        cases hf : parse_with_dateutil text dtp now with
        | none => rw [hf] at hb2; simp at hb2
        | some e =>
          rw [hf] at hb2
          simp only [List.mem_singleton] at hb2
          rw [hb2]
          exact parse_with_dateutil_wf text dtp now e hf
      · rw [if_neg hc] at hb2
        exact collect_wf text dtp now b hb2
    obtain ⟨s, hs⟩ := Option.isSome_iff_exists.mp hwf.1
    obtain ⟨e, he⟩ := Option.isSome_iff_exists.mp hwf.2
    refine ⟨s, e, ?_⟩
    unfold parse_time_simple get_best_time_window
    simp only [hp]
    rw [hs, he]

/-- C5 (confirmed): when no pattern family matched and the fuzzy fallback
produced no accepted candidate, the engine returns `(None, None)`; the
caller's WHERE-clause assembly adds no condition and no parameter for absent
endpoints, treating the pair as the absence of a time constraint. -/
theorem C5_no_match_none :
    (∀ (text : String) (dtp : String → Option Nat) (now : Nat),
      collectExpressions text dtp now = [] →
      parse_with_dateutil text dtp now = none →
      parse_time_simple text dtp now = (none, none)) ∧
    AnswerQuestion.buildWhere none none = ([], []) ∧
    AnswerQuestion.whereSql [] = "" := by
  refine ⟨fun text dtp now h1 h2 => ?_, rfl, rfl⟩
  simp only [parse_time_simple, get_best_time_window, parse_time_expression, h1, h2]
  rfl

/-- C5 witness: the spec's time-free question, with the ISO-date oracle. -/
theorem C5_no_match_none_witness :
    collectExpressions "What is the total bounce rate?" isoDtp now0 = [] ∧
    parse_with_dateutil "What is the total bounce rate?" isoDtp now0 = none ∧
    parse_time_simple "What is the total bounce rate?" isoDtp now0 = (none, none) :=
  ⟨by decide, by decide,
   C5_no_match_none.1 "What is the total bounce rate?" isoDtp now0
     (by decide) (by decide)⟩

/-- C6 (confirmed): the code's duplicate test is exactly the claimed one
(both endpoint distances under 60 seconds, missing endpoints comparing as the
`datetime.min` sentinel); among a duplicate pair only the higher-confidence
candidate survives (the earlier one on ties); the engine returns the
endpoints of the top-confidence candidate left after deduplication; and the
two-family question `last 7 days` + `1 week ago` collapses to a single
returned window. -/
theorem C6_dedup_rank :
    (∀ a b : TimeExpression, isDuplicate a b = true ↔ specDup a b) ∧
    (∀ e1 e2 : TimeExpression, isDuplicate e2 e1 = true →
      (e1.confidence < e2.confidence → deduplicate_expressions [e1, e2] = [e2]) ∧
      (e2.confidence ≤ e1.confidence → deduplicate_expressions [e1, e2] = [e1])) ∧
    (∀ (text : String) (dtp : String → Option Nat) (now : Nat)
       (e : TimeExpression) (rest : List TimeExpression),
      parse_time_expression text dtp now = e :: rest →
      (∀ x ∈ parse_time_expression text dtp now, x.confidence ≤ e.confidence) ∧
      get_best_time_window text dtp now = (e.start_date, e.end_date)) ∧
    (collectExpressions "emails last 7 days 1 week ago" isoDtp now0 = [eDays, eWeeks] ∧
      isDuplicate eWeeks eDays = true ∧
      parse_time_expression "emails last 7 days 1 week ago" isoDtp now0 = [eDays] ∧
      get_best_time_window "emails last 7 days 1 week ago" isoDtp now0 =
        (some (mkInstant 2024 3 8 0 0 0 0), some now0)) := by
  refine ⟨?_, ?_, ?_, rfl, by decide, rfl, rfl⟩
  · intro a b
    simp [isDuplicate, specDup]
  · intro e1 e2 h
    have hgo : deduplicate_expressions [e1, e2] = dedupStep [e1] e2 := rfl
    have hfind : List.find? (fun u => isDuplicate e2 u) [e1] = some e1 := by
      simp [List.find?, h]
    constructor
    · intro hc
      rw [hgo]
      unfold dedupStep
      rw [hfind]
      show (if e1.confidence < e2.confidence then [e1].erase e1 ++ [e2] else [e1]) = [e2]
      rw [if_pos hc]
      simp
    · intro hc
      rw [hgo]
      unfold dedupStep
      rw [hfind]
      show (if e1.confidence < e2.confidence then [e1].erase e1 ++ [e2] else [e1]) = [e1]
      rw [if_neg (Nat.not_lt.mpr hc)]
  · intro text dtp now e rest h
    have hs : (parse_time_expression text dtp now).Sorted confGE := by
      unfold parse_time_expression
      exact sortByConfDesc_sorted _
    rw [h] at hs
    rw [List.sorted_cons] at hs
    constructor
    · intro x hx
      rw [h] at hx
      rcases hx with _ | hx
      · exact le_refl _
      · exact hs.1 x (by assumption)
    · unfold get_best_time_window
      rw [h]

/-- C6 witness: the duplicate-pair branches and the ranking property
instantiated at the concrete two-family scenario. -/
theorem C6_dedup_rank_witness :
    (isDuplicate eWeeks eDays = true ∧
      eDays.confidence ≤ eDays.confidence ∧
      deduplicate_expressions [eDays, eWeeks] = [eDays]) ∧
    (isDuplicate { eWeeks with confidence := 90 } eDays = true ∧
      eDays.confidence < 90 ∧
      deduplicate_expressions [eDays, { eWeeks with confidence := 90 }] =
        [{ eWeeks with confidence := 90 }]) ∧
    ((∀ x ∈ parse_time_expression "emails last 7 days 1 week ago" isoDtp now0,
        x.confidence ≤ eDays.confidence) ∧
      get_best_time_window "emails last 7 days 1 week ago" isoDtp now0 =
        (eDays.start_date, eDays.end_date)) :=
  ⟨⟨by decide, by decide,
    ((C6_dedup_rank.2.1 eDays eWeeks (by decide)).2 (by decide))⟩,
   ⟨by decide, by decide,
    ((C6_dedup_rank.2.1 eDays { eWeeks with confidence := 90 } (by decide)).1 (by decide))⟩,
   C6_dedup_rank.2.2.1 "emails last 7 days 1 week ago" isoDtp now0 eDays [] rfl⟩

/-- C7 (corrected): inside `SimpleTimeParser` the two phrasings are exact
synonyms — `_parse_last_n_days` and `_parse_n_days_ago` are the same function
of the match and the shared `now`, and the engine resolves `last 3 days` and
`3 days ago` to the identical window.  The claim fails for the cli extractor,
which has no `N days ago` pattern at all (see the counterexample), so the
phrasings are not synonyms in every implementation. -/
theorem C7_synonyms :
    (∀ (md : MatchData) (text : String) (dtp : String → Option Nat) (now : Nat),
      parse_last_n_days md text dtp now = parse_n_days_ago md text dtp now) ∧
    parse_time_simple "sent in the last 3 days" isoDtp now0 =
      parse_time_simple "sent 3 days ago" isoDtp now0 :=
  ⟨fun _ _ _ _ => rfl, rfl⟩

/-- C7 counterexample: the cli extractor returns `(None, None)` for
`3 days ago` while `last 3 days` gets a window, so the two phrasings are not
synonyms in that implementation. -/
theorem C7_cli_ago_cex :
    CLI.extract_time_window_advanced "sent 3 days ago" now0 = .ok (none, none) ∧
    CLI.extract_time_window_advanced "sent in the last 3 days" now0 =
      .ok (some (mkInstant 2024 3 12 0 0 0 0), some now0) ∧
    CLI.extract_time_window_advanced "sent 3 days ago" now0 ≠
      CLI.extract_time_window_advanced "sent in the last 3 days" now0 :=
  ⟨rfl, rfl, by decide⟩

/-- C8 (corrected): the windows of two resolve calls agree exactly when the
`now` instants the resolvers read agree to the microsecond — for `today` the
returned end IS the full-precision `now` — so two calls within the same
clock second need not yield identical windows; the clock is read inside each
resolver rather than once per call. -/
theorem C8_now_snapshot :
    (∀ (dtp : String → Option Nat) (now : Nat),
      parse_time_simple "today" dtp now = (some (replaceHMS now 0 0 0), some now)) ∧
    (∀ (dtp : String → Option Nat) (now₁ now₂ : Nat),
      parse_time_simple "today" dtp now₁ = parse_time_simple "today" dtp now₂ ↔
        now₁ = now₂) := by
  have h : ∀ (dtp : String → Option Nat) (now : Nat),
      parse_time_simple "today" dtp now = (some (replaceHMS now 0 0 0), some now) :=
    fun _ _ => rfl
  refine ⟨h, fun dtp n1 n2 => ⟨fun he => ?_, fun he => by rw [he]⟩⟩
  rw [h, h] at he
  exact Option.some_injective _ (congrArg Prod.snd he)

/-- C8 counterexample: two `today` calls at 10:00:00.200000 and
10:00:00.700000 of the same second return different windows. -/
theorem C8_same_second_cex :
    (mkInstant 2024 3 15 10 0 0 200000) / usPerSec =
      (mkInstant 2024 3 15 10 0 0 700000) / usPerSec ∧
    parse_time_simple "today" isoDtp (mkInstant 2024 3 15 10 0 0 200000) ≠
      parse_time_simple "today" isoDtp (mkInstant 2024 3 15 10 0 0 700000) :=
  ⟨by decide, by decide⟩

/-- C9 (corrected): the fuzzy fallback does emit a point-in-time candidate
(start = end = the parsed date) and accepts it exactly when the floored
day-difference to `now` is under 3650 days (ten 365-day years); but it does
NOT participate in the same collect-then-rank pipeline as the other
families — it runs only when no pattern family matched, so its matches are
not collected for every question (see the counterexample). -/
theorem C9_fallback :
    (∀ (text : String) (dtp : String → Option Nat) (now : Nat)
       (ex : TimeExpression),
      parse_with_dateutil text dtp now = some ex →
      ex.start_date = dtp text ∧ ex.start_date = ex.end_date) ∧
    (∀ (text : String) (dtp : String → Option Nat) (now d : Nat),
      dtp text = some d →
      ((parse_with_dateutil text dtp now).isSome ↔
        (Int.fdiv ((d : Int) - (now : Int)) (usPerDay : Int)).natAbs < 3650)) ∧
    (∀ (text : String) (dtp : String → Option Nat) (now : Nat),
      (collectExpressions text dtp now).isEmpty = false →
      parse_time_expression text dtp now =
        sortByConfDesc (deduplicate_expressions (collectExpressions text dtp now))) ∧
    (∀ (text : String) (dtp : String → Option Nat) (now : Nat),
      collectExpressions text dtp now = [] →
      parse_time_expression text dtp now =
        sortByConfDesc (deduplicate_expressions
          ((parse_with_dateutil text dtp now).toList))) := by
  refine ⟨fun text dtp now ex h => ?_, fun text dtp now d h => ?_,
          fun text dtp now h => ?_, fun text dtp now h => ?_⟩
  · unfold parse_with_dateutil at h
    cases hd : dtp text with
    | none => simp only [hd] at h; simp at h
    | some d =>
      simp only [hd] at h
      by_cases hc : (Int.fdiv ((d : Int) - (now : Int)) (usPerDay : Int)).natAbs < 365 * 10
      · rw [if_pos hc] at h
        simp only [Option.some.injEq] at h
        rw [← h]
        exact ⟨rfl, rfl⟩
      · rw [if_neg hc] at h; simp at h
  · unfold parse_with_dateutil
    simp only [h]
    by_cases hc : (Int.fdiv ((d : Int) - (now : Int)) (usPerDay : Int)).natAbs < 365 * 10
    · rw [if_pos hc]
      simpa using hc
    · rw [if_neg hc]
      simpa using hc
  · simp only [parse_time_expression, h, Bool.false_eq_true, if_false]
  · simp only [parse_time_expression, h, List.isEmpty_nil, if_true]
    cases hf : parse_with_dateutil text dtp now <;> simp [hf]

/-- C9 witness: the fallback branches instantiated at concrete questions
(`2025-01-01` is within ten years of the reference instant; `today` has a
matching family so the fallback path is bypassed; a bare date has none). -/
theorem C9_fallback_witness :
    (parse_with_dateutil "2025-01-01" isoDtp now0 =
        some { text := "2025-01-01",
               start_date := some (mkInstant 2025 1 1 0 0 0 0),
               end_date := some (mkInstant 2025 1 1 0 0 0 0),
               confidence := 60, expression_type := "absolute",
               entities := ["2025-01-01"] } ∧
      (some (mkInstant 2025 1 1 0 0 0 0) : Option Nat) = isoDtp "2025-01-01" ∧
      (some (mkInstant 2025 1 1 0 0 0 0) : Option Nat) =
        some (mkInstant 2025 1 1 0 0 0 0)) ∧
    (isoDtp "2025-01-01" = some (mkInstant 2025 1 1 0 0 0 0) ∧
      ((parse_with_dateutil "2025-01-01" isoDtp now0).isSome ↔
        (Int.fdiv ((mkInstant 2025 1 1 0 0 0 0 : Int) - (now0 : Int))
          (usPerDay : Int)).natAbs < 3650)) ∧
    ((collectExpressions "today" isoDtp now0).isEmpty = false ∧
      parse_time_expression "today" isoDtp now0 =
        sortByConfDesc (deduplicate_expressions (collectExpressions "today" isoDtp now0))) ∧
    (collectExpressions "2025-01-01" isoDtp now0 = [] ∧
      parse_time_expression "2025-01-01" isoDtp now0 =
        sortByConfDesc (deduplicate_expressions
          ((parse_with_dateutil "2025-01-01" isoDtp now0).toList))) :=
  ⟨⟨by decide,
    (C9_fallback.1 "2025-01-01" isoDtp now0
      { text := "2025-01-01",
        start_date := some (mkInstant 2025 1 1 0 0 0 0),
        end_date := some (mkInstant 2025 1 1 0 0 0 0),
        confidence := 60, expression_type := "absolute",
        entities := ["2025-01-01"] } (by decide)).1,
    (C9_fallback.1 "2025-01-01" isoDtp now0
      { text := "2025-01-01",
        start_date := some (mkInstant 2025 1 1 0 0 0 0),
        end_date := some (mkInstant 2025 1 1 0 0 0 0),
        confidence := 60, expression_type := "absolute",
        entities := ["2025-01-01"] } (by decide)).2⟩,
   ⟨by decide,
    C9_fallback.2.1 "2025-01-01" isoDtp now0 (mkInstant 2025 1 1 0 0 0 0) (by decide)⟩,
   ⟨by decide, C9_fallback.2.2.1 "today" isoDtp now0 (by decide)⟩,
   ⟨by decide, C9_fallback.2.2.2 "2025-01-01" isoDtp now0 (by decide)⟩⟩

/-- C9 counterexample: on `on 2025-01-01`, with an oracle that (like the
real fuzzy parser) also parses the full question text, the fallback
candidate would be accepted, yet the engine's candidate list contains only
the `on <date>` family's expression — the claimed always-collected pipeline
would contain both — so not all matches from all families are collected for
every question. -/
theorem C9_pipeline_cex :
    (parse_with_dateutil "on 2025-01-01" fuzzyDtp now0).isSome = true ∧
    parse_time_expression "on 2025-01-01" fuzzyDtp now0 = [onE] ∧
    claimedPipeline "on 2025-01-01" fuzzyDtp now0 = [onE, fbE] ∧
    parse_time_expression "on 2025-01-01" fuzzyDtp now0 ≠
      claimedPipeline "on 2025-01-01" fuzzyDtp now0 := by
  refine ⟨rfl, rfl, rfl, fun h => ?_⟩
  have hlen := congrArg List.length h
  rw [show parse_time_expression "on 2025-01-01" fuzzyDtp now0 = [onE] from rfl,
      show claimedPipeline "on 2025-01-01" fuzzyDtp now0 = [onE, fbE] from rfl] at hlen
  simp at hlen

/-- C10 (confirmed): any SQL string failing `is_safe_select` — in particular
one that does not begin with SELECT, or one containing a word-bounded
mutation keyword (insert, update, delete, drop, alter, create, truncate,
replace) anywhere — makes `run_sql_readonly` return empty columns, empty
rows and a fixed non-empty error message, for every database oracle (so
nothing is executed against the database). -/
theorem C10_sql_gate :
    (∀ (sql : String) (execDb : String → Except String (List String × List (List String))),
      SQLAgent.is_safe_select sql = false →
        SQLAgent.run_sql_readonly execDb sql =
          ([], [], "Unsafe or non-SELECT SQL was rejected.") ∧
        "Unsafe or non-SELECT SQL was rejected." ≠ "") ∧
    (∀ sql : String, SQLAgent.startsSelect (sql.data.map Char.toLower) = false →
      SQLAgent.is_safe_select sql = false) ∧
    (∀ sql : String,
      SQLAgent.searchWbAlt SQLAgent.mutationKws (pyStrip (sql.data.map Char.toLower)) = true →
      SQLAgent.is_safe_select sql = false) := by
  refine ⟨fun sql execDb h => ⟨?_, by simp⟩, fun sql h => ?_, fun sql h => ?_⟩
  · simp only [SQLAgent.run_sql_readonly, h, Bool.not_false, ite_true]
  · simp only [SQLAgent.is_safe_select, h, Bool.not_false, ite_true]
  · simp only [SQLAgent.is_safe_select, h]
    cases hs : SQLAgent.startsSelect (sql.data.map Char.toLower) <;>
      (simp only [hs, Bool.not_false, Bool.not_true, ite_true, ite_false]; try rfl)

/-- C10 witness: a mutation statement is rejected without touching the
database oracle; a SELECT containing a word-bounded `drop` is also rejected. -/
theorem C10_sql_gate_witness :
    (SQLAgent.is_safe_select "DROP TABLE email_events" = false ∧
      SQLAgent.run_sql_readonly (fun _ => .ok (["c"], [["v"]])) "DROP TABLE email_events"
        = ([], [], "Unsafe or non-SELECT SQL was rejected.")) ∧
    (SQLAgent.startsSelect ((String.data "DROP TABLE email_events").map Char.toLower) = false ∧
      SQLAgent.is_safe_select "DROP TABLE email_events" = false) ∧
    (SQLAgent.searchWbAlt SQLAgent.mutationKws
        (pyStrip ((String.data "SELECT drop FROM t").map Char.toLower)) = true ∧
      SQLAgent.is_safe_select "SELECT drop FROM t" = false) :=
  ⟨⟨by decide, (C10_sql_gate.1 "DROP TABLE email_events" _ (by decide)).1⟩,
   ⟨by decide, C10_sql_gate.2.1 "DROP TABLE email_events" (by decide)⟩,
   ⟨by decide, C10_sql_gate.2.2 "SELECT drop FROM t" (by decide)⟩⟩
